import Mathlib

/-!
Shallow embedding of the public contacts API of the nossocrm repository
(`src/app/api/public/v1/contacts/route.ts` and
`src/app/api/public/v1/contacts/[contactId]/route.ts`), together with
models of the small helper libraries (`cursor`, `sanitize`, UUID utils)
whose sources are referenced by the routes but are not part of the
source tree; those helpers are modelled from the specification and are
marked as such in their doc comments.

The managed database client (supabase) is modelled as an in-memory
store of contact and company rows with the tenant / soft-delete
predicate semantics used by the routes, plus an explicit
failure-injection queue so that adapter failures can be analysed.
JavaScript `new Date(...)` general parsing is an oracle parameter
`jsDate : String → Option String` returning the `toISOString()` text of
the parsed date, or `none` when parsing yields `NaN`.
-/

/-! ## Character and string helpers (list-based, kernel-reducible) -/

def isDigitCh (c : Char) : Bool := 48 ≤ c.toNat && c.toNat ≤ 57

def isWS (c : Char) : Bool := c == ' ' || c == '\t' || c == '\n' || c == '\r'

/-- JavaScript `String.prototype.trim` modelled on the character list. -/
def trimList (l : List Char) : List Char :=
  ((l.dropWhile isWS).reverse.dropWhile isWS).reverse

def trimStr (s : String) : String := ⟨trimList s.data⟩

/-- ASCII lower-casing of a character, as `ilike` and `toLowerCase` do. -/
def lowerCh (c : Char) : Char :=
  if 65 ≤ c.toNat ∧ c.toNat ≤ 90 then Char.ofNat (c.toNat + 32) else c

def lowerStr (s : String) : String := ⟨s.data.map lowerCh⟩

/-! ## Decimal digit codec (used for generated row ids and the cursor) -/

def digitToChar (d : Nat) : Char := Char.ofNat (48 + d)

def charToDigit (c : Char) : Option Nat :=
  if isDigitCh c then some (c.toNat - 48) else none

/-- Decimal digits of `n`, most significant first; `fuel` bounds the
division recursion (any `fuel > n` is enough). -/
def encDigits : Nat → Nat → List Char
  | 0, _ => []
  | fuel + 1, n =>
    if n < 10 then [digitToChar n]
    else encDigits fuel (n / 10) ++ [digitToChar (n % 10)]

def natStr (n : Nat) : String := ⟨encDigits (n + 1) n⟩

/-- Left fold reading decimal digits; fails on any non-digit. -/
def decDigitsAux : List Char → Nat → Option Nat
  | [], acc => some acc
  | c :: cs, acc =>
    match charToDigit c with
    | none => none
    | some d => decDigitsAux cs (acc * 10 + d)

/-! ## SQL `LIKE` pattern matching (case-insensitive via `lowerStr`)

`.ilike('name', name)` hands the name verbatim to Postgres as a
pattern, so `%` matches any sequence and `_` any single character.
`fuel` bounds the recursion; `|pat| + |s| + 1` is always enough. -/

def likeMatchAux : Nat → List Char → List Char → Bool
  | 0, _, _ => false
  | _ + 1, [], [] => true
  | _ + 1, [], _ :: _ => false
  | fuel + 1, p :: ps, s =>
    if p = '%' then
      match s with
      | [] => likeMatchAux fuel ps []
      | _ :: cs => likeMatchAux fuel ps s || likeMatchAux fuel (p :: ps) cs
    else
      match s with
      | [] => false
      | c :: cs =>
        if p = '_' then likeMatchAux fuel ps cs
        else p == c && likeMatchAux fuel ps cs

def likeMatch (pat s : List Char) : Bool :=
  likeMatchAux (pat.length + s.length + 1) pat s

/-- Postgres `ILIKE`: case-insensitive `LIKE`. -/
def ilike (s pat : String) : Bool :=
  likeMatch (lowerStr pat).data (lowerStr s).data

/-! ## Input Normalizer (`@/lib/public-api/sanitize`, `@/lib/supabase/utils`) -/

/-- Modelled from the spec: `normalizeText` — "Text fields: trim
surrounding whitespace; empty string normalizes to absence (not stored
as empty)." (`src/lib/public-api/sanitize.ts` is not in the source
tree.) -/
def normalizeText (v : Option String) : Option String :=
  match v with
  | none => none
  | some s => if trimStr s = "" then none else some (trimStr s)

/-- Modelled from the spec: `normalizeEmail` — "Email: lower-case,
trim; no RFC validation is enforced beyond emptiness." -/
def normalizeEmail (v : Option String) : Option String :=
  match v with
  | none => none
  | some s => if trimStr s = "" then none else some (lowerStr (trimStr s))

/-- Modelled from the spec: `normalizePhone` — "Phone: strip
non-essential formatting per a single canonical rule"; we canonicalize
to the digit characters only, applied identically on write and lookup
paths. -/
def normalizePhone (v : Option String) : Option String :=
  match v with
  | none => none
  | some s =>
    let ds := s.data.filter isDigitCh
    if ds = [] then none else some ⟨ds⟩

def isHexDigit (c : Char) : Bool :=
  isDigitCh c || (97 ≤ c.toNat && c.toNat ≤ 102) || (65 ≤ c.toNat && c.toNat ≤ 70)

/-- Split a character list at a dash, keeping empty groups. -/
def splitDash : List Char → List (List Char)
  | [] => [[]]
  | c :: cs =>
    if c = '-' then [] :: splitDash cs
    else
      match splitDash cs with
      | [] => [[c]]
      | g :: gs => (c :: g) :: gs

/-- Modelled from the spec: `isValidUUID` — "UUID: validate format";
the canonical 8-4-4-4-12 hexadecimal shape.
(`src/lib/supabase/utils.ts` is not in the source tree.) -/
def isValidUUID (s : String) : Bool :=
  let ps := splitDash s.data
  ps.map List.length == [8, 4, 4, 4, 12] && ps.all (·.all isHexDigit)

/-- Modelled from the spec: `sanitizeUUID` — "invalid input yields
`null` (treated as absent) rather than an error". -/
def sanitizeUUID (v : Option String) : Option String :=
  match v with
  | none => none
  | some s => if isValidUUID s then some s else none

/-! ## Cursor Paginator (`@/lib/public-api/cursor`) -/

/-- Modelled from the spec: `encode(offset: non-negative integer) ->
token`; the token is the decimal text of the offset.
(`src/lib/public-api/cursor.ts` is not in the source tree.) -/
def encodeOffsetCursor (k : Nat) : String := natStr k

/-- Modelled from the spec: `decode(token) -> offset`, "defaulting to 0
on absent/malformed token"; a token is well formed when it is a
non-empty all-digit string. -/
def decodeOffsetCursor (tok : Option String) : Nat :=
  match tok with
  | none => 0
  | some s =>
    match s.data with
    | [] => 0
    | l => (decDigitsAux l 0).getD 0

/-- Modelled from the spec: `parseLimit(raw)` clamps to a fixed
documented range; we use default 20 and range `[1, 100]`. -/
def parseLimit (raw : Option String) : Nat :=
  match raw with
  | none => 20
  | some s =>
    match s.data with
    | [] => 20
    | l =>
      match decDigitsAux l 0 with
      | none => 20
      | some n => max 1 (min n 100)

/-! ## Data model

`Contact` and `Company` rows as selected / written by the routes.
Generated ids are strings; `total_value` is modelled as an integer
(`numeric` pass-through; no arithmetic is performed on it). -/

structure Contact where
  id : String
  organization_id : String
  name : Option String
  email : Option String
  phone : Option String
  role : Option String
  company_name : Option String
  client_company_id : Option String
  avatar : Option String
  status : Option String
  stage : Option String
  source : Option String
  notes : Option String
  birth_date : Option String
  last_interaction : Option String
  last_purchase_date : Option String
  total_value : Option Int
  created_at : String
  updated_at : String
  deleted_at : Option String
deriving Repr, DecidableEq

structure Company where
  id : String
  organization_id : String
  name : String
  created_at : String
  updated_at : String
  deleted_at : Option String
deriving Repr, DecidableEq

/-- The in-memory model of the managed store: the two tables, a
counter for generated ids, and a failure-injection queue consumed one
entry per store operation (`some msg` makes that operation fail with
the adapter message `msg`; `none` lets it succeed). -/
structure Store where
  contacts : List Contact
  companies : List Company
  nextId : Nat
  errs : List (Option String)
deriving Repr, DecidableEq

def popErr (st : Store) : Option String × Store :=
  match st.errs with
  | [] => (none, st)
  | e :: rest => (e, { st with errs := rest })

def freshContactId (st : Store) : String := "c" ++ natStr st.nextId

def freshCompanyId (st : Store) : String := "co" ++ natStr st.nextId

/-! ## Date / timestamp normalization (`route.ts` lines 29–45)

`jsDate s` is the oracle for JavaScript `new Date(s)`: `none` when the
result is `NaN`, otherwise `some` of the `toISOString()` text. -/

def dateShape (s : String) : Bool :=
  match s.data with
  | [a, b, c, d, e, f, g, h, i, j] =>
    isDigitCh a && isDigitCh b && isDigitCh c && isDigitCh d &&
    e = '-' && isDigitCh f && isDigitCh g && h = '-' &&
    isDigitCh i && isDigitCh j
  | _ => false

def toIsoDateString (jsDate : String → Option String) (v : Option String) : Option String :=
  let s := trimStr (v.getD "")
  if s = "" then none
  else if dateShape s then some s
  else
    match jsDate s with
    | none => some "__INVALID__"
    | some iso => some ⟨iso.data.take 10⟩

def toIsoTimestamp (jsDate : String → Option String) (v : Option String) : Option String :=
  let s := trimStr (v.getD "")
  if s = "" then none
  else
    match jsDate s with
    | none => some "__INVALID__"
    | some iso => some iso

/-! ## Responses -/

structure ApiError where
  error : String
  code : String
deriving Repr, DecidableEq

inductive PostResp where
  | err (status : Nat) (body : ApiError)
  | ok (status : Nat) (action : String) (data : Contact)
deriving Repr, DecidableEq

inductive ListResp where
  | err (status : Nat) (body : ApiError)
  | ok (data : List Contact) (nextCursor : Option String)
deriving Repr, DecidableEq

inductive OneResp where
  | err (status : Nat) (body : ApiError)
  | ok (data : Contact)
deriving Repr, DecidableEq

def PostResp.dataOf : PostResp → Option Contact
  | .ok _ _ c => some c
  | _ => none

def PostResp.actionOf : PostResp → Option String
  | .ok _ a _ => some a
  | _ => none

/-! ## Company Resolver (`route.ts` lines 47–70) -/

def companyLookupRows (orgId name : String) (st : Store) : List Company :=
  st.companies.filter fun co =>
    co.organization_id == orgId && co.deleted_at == none && ilike co.name name

/-- `resolveCompanyIdFromName`: case-insensitive name lookup scoped to
the tenant's non-deleted companies (`maybeSingle`), creating the
company when no row matches. Thrown store errors are returned as
`Except.error` with the adapter message. -/
def resolveCompanyIdFromName (now orgId companyName : String) (st : Store) :
    Except String (Option String) × Store :=
  match normalizeText (some companyName) with
  | none => (.ok none, st)
  | some name =>
    let (e, st) := popErr st
    match e with
    | some m => (.error m, st)
    | none =>
      match companyLookupRows orgId name st with
      | [co] => (.ok (some co.id), st)
      | [] =>
        let (e2, st2) := popErr st
        match e2 with
        | some m => (.error m, st2)
        | none =>
          let co : Company :=
            { id := freshCompanyId st2, organization_id := orgId, name := name,
              created_at := now, updated_at := now, deleted_at := none }
          (.ok (some co.id),
            { st2 with companies := st2.companies ++ [co], nextId := st2.nextId + 1 })
      | _ => (.error "multiple rows", st)

/-! ## Request bodies -/

/-- Body accepted by `ContactUpsertSchema` (`route.ts` lines 11–27);
`none` models an absent key. A request whose JSON fails the strict
schema (or is not JSON) is modelled as `none : Option PostBody`. -/
structure PostBody where
  name : Option String := none
  email : Option String := none
  phone : Option String := none
  role : Option String := none
  company_name : Option String := none
  client_company_id : Option String := none
  avatar : Option String := none
  status : Option String := none
  stage : Option String := none
  birth_date : Option String := none
  last_interaction : Option String := none
  last_purchase_date : Option String := none
  total_value : Option Int := none
  source : Option String := none
  notes : Option String := none
deriving Repr, DecidableEq

/-! ## Dedup Resolver (`route.ts` lines 170–181) -/

def dedupPred (orgId : String) (email phone : Option String) (c : Contact) : Bool :=
  c.organization_id == orgId && c.deleted_at == none &&
  (match email, phone with
   | some e, some p => c.email == some e || c.phone == some p
   | some e, none => c.email == some e
   | none, some p => c.phone == some p
   | none, none => false)

def dedupRows (orgId : String) (email phone : Option String) (st : Store) : List Contact :=
  st.contacts.filter (dedupPred orgId email phone)

/-! ## POST /contacts (`route.ts` lines 133–234) -/

/-- The `payload` object (`route.ts` lines 184–204) applied to the
matched contact on the update path: every key is written, except that
`name` is only set when the normalized name is non-empty and
`total_value` is dropped from the payload (stays `undefined`) when
absent from the body. -/
def postUpdatePayload (now orgId : String) (b : PostBody)
    (email phone name companyName cid bd li lp : Option String)
    (c : Contact) : Contact :=
  { c with
    organization_id := orgId,
    email := email,
    phone := phone,
    role := normalizeText b.role,
    company_name := companyName,
    client_company_id := cid,
    avatar := normalizeText b.avatar,
    status := normalizeText b.status,
    stage := normalizeText b.stage,
    source := normalizeText b.source,
    notes := normalizeText b.notes,
    birth_date := bd,
    last_interaction := li,
    last_purchase_date := lp,
    total_value := match b.total_value with | some v => some v | none => c.total_value,
    updated_at := now,
    name := match name with | some nm => some nm | none => c.name }

/-- The `insertPayload` (`route.ts` lines 219–225): the update payload
plus `name` and `created_at`, with `status` and `stage` overridden by
the literals `'ACTIVE'` and `'LEAD'`. -/
def postInsertContact (now orgId : String) (b : PostBody)
    (email phone companyName cid bd li lp : Option String)
    (nm : String) (st : Store) : Contact :=
  { id := freshContactId st,
    organization_id := orgId,
    name := some nm,
    email := email,
    phone := phone,
    role := normalizeText b.role,
    company_name := companyName,
    client_company_id := cid,
    avatar := normalizeText b.avatar,
    status := some "ACTIVE",
    stage := some "LEAD",
    source := normalizeText b.source,
    notes := normalizeText b.notes,
    birth_date := bd,
    last_interaction := li,
    last_purchase_date := lp,
    total_value := b.total_value,
    created_at := now,
    updated_at := now,
    deleted_at := none }

/-- Dedup lookup (`maybeSingle`) followed by the update or insert
write (`route.ts` lines 170–234, after company resolution). -/
def postFinish (now orgId : String) (b : PostBody)
    (email phone name companyName cid bd li lp : Option String)
    (st : Store) : PostResp × Store :=
  let (e, st1) := popErr st
  match e with
  | some m => (.err 500 ⟨m, "DB_ERROR"⟩, st1)
  | none =>
    match dedupRows orgId email phone st1 with
    | [c] =>
      let (e2, st2) := popErr st1
      match e2 with
      | some m => (.err 500 ⟨m, "DB_ERROR"⟩, st2)
      | none =>
        let newC := postUpdatePayload now orgId b email phone name companyName cid bd li lp c
        match st2.contacts.filter (fun d => d.id == c.id) with
        | [_] =>
          (.ok 200 "updated" newC,
           { st2 with contacts := st2.contacts.map fun d => if d.id == c.id then newC else d })
        | _ => (.err 500 ⟨"single row expected", "DB_ERROR"⟩, st2)
    | [] =>
      match name with
      | none => (.err 422 ⟨"Name is required to create a new contact", "VALIDATION_ERROR"⟩, st1)
      | some nm =>
        let (e2, st2) := popErr st1
        match e2 with
        | some m => (.err 500 ⟨m, "DB_ERROR"⟩, st2)
        | none =>
          let newC := postInsertContact now orgId b email phone companyName cid bd li lp nm st2
          (.ok 201 "created" newC,
           { st2 with contacts := st2.contacts ++ [newC], nextId := st2.nextId + 1 })
    | _ => (.err 500 ⟨"multiple rows", "DB_ERROR"⟩, st1)

/-- The POST handler, after successful authentication resolved the
tenant `orgId`. `body = none` models a request whose JSON does not
satisfy the strict upsert schema. -/
def POST (jsDate : String → Option String) (now orgId : String)
    (body : Option PostBody) (st : Store) : PostResp × Store :=
  match body with
  | none => (.err 422 ⟨"Invalid payload", "VALIDATION_ERROR"⟩, st)
  | some b =>
    let email := normalizeEmail b.email
    let phone := normalizePhone b.phone
    let name := normalizeText b.name
    let companyName := normalizeText b.company_name
    match email, phone with
    | none, none => (.err 422 ⟨"Provide email or phone", "VALIDATION_ERROR"⟩, st)
    | _, _ =>
      let bd := toIsoDateString jsDate b.birth_date
      if bd = some "__INVALID__" then
        (.err 422 ⟨"Invalid birth_date", "VALIDATION_ERROR"⟩, st)
      else
        let lp := toIsoDateString jsDate b.last_purchase_date
        if lp = some "__INVALID__" then
          (.err 422 ⟨"Invalid last_purchase_date", "VALIDATION_ERROR"⟩, st)
        else
          let li := toIsoTimestamp jsDate b.last_interaction
          if li = some "__INVALID__" then
            (.err 422 ⟨"Invalid last_interaction", "VALIDATION_ERROR"⟩, st)
          else
            match sanitizeUUID b.client_company_id, companyName with
            | none, some cn =>
              match resolveCompanyIdFromName now orgId cn st with
              | (.error m, st1) =>
                (.err 422 ⟨if m = "" then "Invalid company" else m, "VALIDATION_ERROR"⟩, st1)
              | (.ok cid, st1) =>
                postFinish now orgId b email phone name companyName cid bd li lp st1
            | cid0, _ =>
              postFinish now orgId b email phone name companyName cid0 bd li lp st

/-- The company-resolution stage of POST (`route.ts` lines 161–168):
a directly supplied valid `client_company_id` wins; otherwise a
non-empty `company_name` is resolved (possibly creating a company);
otherwise the id stays `null`. -/
def postCompanyStage (now orgId : String) (b : PostBody) (st : Store) :
    Except String (Option String) × Store :=
  match sanitizeUUID b.client_company_id, normalizeText b.company_name with
  | none, some cn => resolveCompanyIdFromName now orgId cn st
  | cid0, _ => (.ok cid0, st)

/-! ## GET /contacts (`route.ts` lines 72–131) -/

structure GetParams where
  q : Option String := none
  email : Option String := none
  phone : Option String := none
  client_company_id : Option String := none
  limit : Option String := none
  cursor : Option String := none
deriving Repr, DecidableEq

def qFilter (q : String) (c : Contact) : Bool :=
  let pat := "%" ++ q ++ "%"
  (match c.name with | some s => ilike s pat | none => false) ||
  (match c.email with | some s => ilike s pat | none => false) ||
  (match c.phone with | some s => ilike s pat | none => false)

def getFilterRow (orgId : String) (emailF phoneF cidF : Option String) (q : String)
    (c : Contact) : Bool :=
  c.organization_id == orgId && c.deleted_at == none &&
  (match cidF with | some v => c.client_company_id == some v | none => true) &&
  (match emailF with | some v => c.email == some v | none => true) &&
  (match phoneF with | some v => c.phone == some v | none => true) &&
  (if q = "" then true else qFilter q c)

/-- Lexicographic code-point order on character lists (the order that
string-typed `created_at` timestamps sort by). -/
def ltCharList : List Char → List Char → Bool
  | [], [] => false
  | [], _ :: _ => true
  | _ :: _, [] => false
  | a :: as, b :: bs =>
    if a.toNat < b.toNat then true
    else if b.toNat < a.toNat then false
    else ltCharList as bs

def strLt (a b : String) : Bool := ltCharList a.data b.data

def insertByCreatedDesc (c : Contact) : List Contact → List Contact
  | [] => [c]
  | d :: ds =>
    if strLt d.created_at c.created_at then c :: d :: ds
    else d :: insertByCreatedDesc c ds

def sortByCreatedDesc : List Contact → List Contact
  | [] => []
  | c :: cs => insertByCreatedDesc c (sortByCreatedDesc cs)

/-- The full filtered, tenant-scoped, non-deleted, `created_at`
descending result set of the list query, before the range window. -/
def contactsQueryRows (orgId : String) (p : GetParams) (st : Store) : List Contact :=
  let email := normalizeEmail p.email
  let phone := normalizePhone p.phone
  let cid := sanitizeUUID p.client_company_id
  let q := trimStr (p.q.getD "")
  sortByCreatedDesc (st.contacts.filter (getFilterRow orgId email phone cid q))

/-- The GET list handler: `from = offset`, `to = offset + limit - 1`,
`range(from, to)` inclusive, exact count before the window, and
`nextCursor = encode(to + 1)` when `to + 1 < total`. -/
def GET (orgId : String) (p : GetParams) (st : Store) : ListResp × Store :=
  let limit := parseLimit p.limit
  let offset := decodeOffsetCursor p.cursor
  let (e, st1) := popErr st
  match e with
  | some m => (.err 500 ⟨m, "DB_ERROR"⟩, st1)
  | none =>
    let rows := contactsQueryRows orgId p st1
    let lo := offset
    let hi := offset + limit - 1
    let data := (rows.drop lo).take (hi + 1 - lo)
    let total := rows.length
    let nextOffset := hi + 1
    let nextCursor :=
      if nextOffset < total then some (encodeOffsetCursor nextOffset) else none
    (.ok data nextCursor, st1)

/-! ## GET /contacts/{id} (`[contactId]/route.ts` lines 46–68) -/

def GETone (orgId contactId : String) (st : Store) : OneResp × Store :=
  match isValidUUID contactId with
  | false => (.err 422 ⟨"Invalid contact id", "VALIDATION_ERROR"⟩, st)
  | true =>
    let (e, st1) := popErr st
    match e with
    | some m => (.err 500 ⟨m, "DB_ERROR"⟩, st1)
    | none =>
      match st1.contacts.filter (fun c =>
          c.organization_id == orgId && c.deleted_at == none && c.id == contactId) with
      | [] => (.err 404 ⟨"Contact not found", "NOT_FOUND"⟩, st1)
      | [c] => (.ok c, st1)
      | _ => (.err 500 ⟨"multiple rows", "DB_ERROR"⟩, st1)

/-! ## PATCH /contacts/{id} (`[contactId]/route.ts` lines 70–135) -/

/-- Body accepted by `ContactPatchSchema`. The outer `Option` of each
field is key presence; for the nullable fields the inner `Option`
distinguishes an explicit `null` from a value. -/
structure PatchBody where
  name : Option String := none
  email : Option String := none
  phone : Option String := none
  role : Option String := none
  company_name : Option String := none
  client_company_id : Option (Option String) := none
  avatar : Option String := none
  status : Option String := none
  stage : Option String := none
  birth_date : Option (Option String) := none
  last_interaction : Option (Option String) := none
  last_purchase_date : Option (Option String) := none
  total_value : Option (Option Int) := none
  source : Option String := none
  notes : Option String := none
deriving Repr, DecidableEq

/-- The `updates` object: a key is present (`some`) exactly when the
corresponding body key was present. -/
structure ContactUpdates where
  name : Option (Option String) := none
  email : Option (Option String) := none
  phone : Option (Option String) := none
  role : Option (Option String) := none
  company_name : Option (Option String) := none
  client_company_id : Option (Option String) := none
  avatar : Option (Option String) := none
  status : Option (Option String) := none
  stage : Option (Option String) := none
  source : Option (Option String) := none
  notes : Option (Option String) := none
  birth_date : Option (Option String) := none
  last_interaction : Option (Option String) := none
  last_purchase_date : Option (Option String) := none
  total_value : Option (Option Int) := none
deriving Repr, DecidableEq

/-- Applying the `updates` object to a stored row: present keys
overwrite, absent keys keep the stored value; `updated_at` is always
set. -/
def applyUpdates (u : ContactUpdates) (now : String) (c : Contact) : Contact :=
  { c with
    name := u.name.getD c.name,
    email := u.email.getD c.email,
    phone := u.phone.getD c.phone,
    role := u.role.getD c.role,
    company_name := u.company_name.getD c.company_name,
    client_company_id := u.client_company_id.getD c.client_company_id,
    avatar := u.avatar.getD c.avatar,
    status := u.status.getD c.status,
    stage := u.stage.getD c.stage,
    source := u.source.getD c.source,
    notes := u.notes.getD c.notes,
    birth_date := u.birth_date.getD c.birth_date,
    last_interaction := u.last_interaction.getD c.last_interaction,
    last_purchase_date := u.last_purchase_date.getD c.last_purchase_date,
    total_value := u.total_value.getD c.total_value,
    updated_at := now }

/-- The update write of PATCH: `.eq('organization_id', orgId)
.eq('id', contactId)` then `maybeSingle` (note: no soft-delete
predicate on this write, mirroring the source). -/
def patchWrite (orgId contactId : String) (u : ContactUpdates) (now : String)
    (st : Store) : OneResp × Store :=
  let (e, st1) := popErr st
  match e with
  | some m => (.err 500 ⟨m, "DB_ERROR"⟩, st1)
  | none =>
    match st1.contacts.filter (fun c => c.organization_id == orgId && c.id == contactId) with
    | [] => (.err 404 ⟨"Contact not found", "NOT_FOUND"⟩, st1)
    | [c] =>
      (.ok (applyUpdates u now c),
       { st1 with contacts := st1.contacts.map fun d =>
           if d.organization_id == orgId && d.id == contactId then applyUpdates u now d else d })
    | _ => (.err 500 ⟨"multiple rows", "DB_ERROR"⟩, st1)

/-- Normalization of the present keys of a PATCH body into the
`updates` object (`[contactId]/route.ts` lines 85–119). -/
def patchUpdates (jsDate : String → Option String) (b : PatchBody) : ContactUpdates :=
  { name := b.name.map (fun s => normalizeText (some s)),
    email := b.email.map (fun s => normalizeEmail (some s)),
    phone := b.phone.map (fun s => normalizePhone (some s)),
    role := b.role.map (fun s => normalizeText (some s)),
    company_name := b.company_name.map (fun s => normalizeText (some s)),
    avatar := b.avatar.map (fun s => normalizeText (some s)),
    status := b.status.map (fun s => normalizeText (some s)),
    stage := b.stage.map (fun s => normalizeText (some s)),
    source := b.source.map (fun s => normalizeText (some s)),
    notes := b.notes.map (fun s => normalizeText (some s)),
    client_company_id := b.client_company_id.map (fun v => v.bind (fun s => sanitizeUUID (some s))),
    birth_date := b.birth_date.map (fun v => v.bind (fun s => toIsoDateString jsDate (some s))),
    last_purchase_date :=
      b.last_purchase_date.map (fun v => v.bind (fun s => toIsoDateString jsDate (some s))),
    last_interaction :=
      b.last_interaction.map (fun v => v.bind (fun s => toIsoTimestamp jsDate (some s))),
    total_value := b.total_value }

/-- The PATCH handler, after successful authentication. `body = none`
models a request whose JSON does not satisfy the strict patch schema. -/
def PATCH (jsDate : String → Option String) (now orgId contactId : String)
    (body : Option PatchBody) (st : Store) : OneResp × Store :=
  match isValidUUID contactId with
  | false => (.err 422 ⟨"Invalid contact id", "VALIDATION_ERROR"⟩, st)
  | true =>
    match body with
    | none => (.err 422 ⟨"Invalid payload", "VALIDATION_ERROR"⟩, st)
    | some b =>
      let u := patchUpdates jsDate b
      if u.birth_date = some (some "__INVALID__") then
        (.err 422 ⟨"Invalid birth_date", "VALIDATION_ERROR"⟩, st)
      else if u.last_purchase_date = some (some "__INVALID__") then
        (.err 422 ⟨"Invalid last_purchase_date", "VALIDATION_ERROR"⟩, st)
      else if u.last_interaction = some (some "__INVALID__") then
        (.err 422 ⟨"Invalid last_interaction", "VALIDATION_ERROR"⟩, st)
      else patchWrite orgId contactId u now st

/-! ## Concrete rows and inputs used by witnesses and counterexamples -/

/-- A JavaScript date oracle under which no general date string
parses (`new Date(s)` is `NaN` for every non-shape input). -/
def jsNone : String → Option String := fun _ => none

def demoContact : Contact :=
  { id := "c0", organization_id := "org", name := some "Ana",
    email := some "ana@ex.com", phone := none, role := none,
    company_name := none, client_company_id := none, avatar := none,
    status := some "ACTIVE", stage := some "LEAD", source := none,
    notes := none, birth_date := none, last_interaction := none,
    last_purchase_date := none, total_value := none,
    created_at := "2024-01-01T00:00:00.000Z",
    updated_at := "2024-01-01T00:00:00.000Z", deleted_at := none }

def demoContact2 : Contact :=
  { demoContact with
    id := "c1",
    email := some "bia@ex.com",
    created_at := "2024-01-02T00:00:00.000Z",
    updated_at := "2024-01-02T00:00:00.000Z" }

/-- An empty tenant store. -/
def emptyStore : Store := { contacts := [], companies := [], nextId := 0, errs := [] }

/-- A store holding the two demo contacts. -/
def demoStore : Store :=
  { contacts := [demoContact, demoContact2], companies := [], nextId := 5, errs := [] }

def demoCompany : Company :=
  { id := "co9", organization_id := "org", name := "ab",
    created_at := "2024-01-01T00:00:00.000Z",
    updated_at := "2024-01-01T00:00:00.000Z", deleted_at := none }

/-- A store holding one company named `ab`. -/
def companyStore : Store :=
  { contacts := [], companies := [demoCompany], nextId := 3, errs := [] }

def uuidContact : Contact :=
  { demoContact with id := "123e4567-e89b-12d3-a456-426614174000" }

/-- A store holding one contact whose id is a well-formed UUID. -/
def uuidStore : Store :=
  { contacts := [uuidContact], companies := [], nextId := 0, errs := [] }

/-- A store whose first adapter operation fails with message `boom`. -/
def errStore : Store :=
  { contacts := [], companies := [], nextId := 0, errs := [some "boom"] }

/-! ## Lemmas about the decimal codec -/

theorem charToDigit_digitToChar (n : Nat) (h : n < 10) :
    charToDigit (digitToChar n) = some n := by
  interval_cases n <;> rfl

theorem decDigitsAux_append (xs ys : List Char) (acc : Nat) :
    decDigitsAux (xs ++ ys) acc =
      match decDigitsAux xs acc with
      | none => none
      | some a => decDigitsAux ys a := by
  induction xs generalizing acc with
  | nil => rfl
  | cons c cs ih =>
    simp only [List.cons_append, decDigitsAux]
    cases charToDigit c with
    | none => rfl
    | some d => exact ih (acc * 10 + d)

theorem decDigitsAux_encDigits (fuel : Nat) :
    ∀ n, n < fuel → ∃ M, ∀ acc,
      decDigitsAux (encDigits fuel n) acc = some (acc * M + n) := by
  induction fuel with
  | zero => intro n h; omega
  | succ fuel ih =>
    intro n h
    by_cases h10 : n < 10
    · refine ⟨10, fun acc => ?_⟩
      simp only [encDigits, if_pos h10, decDigitsAux, charToDigit_digitToChar n h10]
    · have hdiv : n / 10 < fuel := by omega
      obtain ⟨M, hM⟩ := ih (n / 10) hdiv
      refine ⟨M * 10, fun acc => ?_⟩
      simp only [encDigits, if_neg h10]
      rw [decDigitsAux_append, hM acc]
      simp only [decDigitsAux, charToDigit_digitToChar (n % 10) (Nat.mod_lt n (by omega))]
      have : (acc * M + n / 10) * 10 + n % 10 = acc * (M * 10) + (n / 10 * 10 + n % 10) := by
        ring
      rw [this]
      congr 2
      omega

theorem encDigits_ne_nil (fuel n : Nat) : encDigits (fuel + 1) n ≠ [] := by
  simp only [encDigits]
  split <;> simp

theorem decDigitsAux_has_nondigit (l : List Char) (acc : Nat)
    (h : ∃ c ∈ l, isDigitCh c = false) : decDigitsAux l acc = none := by
  induction l generalizing acc with
  | nil => simp at h
  | cons c cs ih =>
    simp only [decDigitsAux]
    rcases h with ⟨d, hd, hdig⟩
    rcases List.mem_cons.mp hd with rfl | hmem
    · simp [charToDigit, hdig]
    · cases hc : charToDigit c with
      | none => rfl
      | some k => exact ih _ ⟨d, hmem, hdig⟩

theorem decodeOffsetCursor_mk (l : List Char) (h : l ≠ []) :
    decodeOffsetCursor (some ⟨l⟩) = (decDigitsAux l 0).getD 0 := by
  cases l with
  | nil => exact absurd rfl h
  | cons c cs => rfl

/-- C8: decoding the token produced by encoding any non-negative
integer `k` yields `k` back, and decoding an absent, empty, or
non-digit-bearing (malformed) token yields offset 0. -/
theorem C8_cursor_codec :
    (∀ k : Nat, decodeOffsetCursor (some (encodeOffsetCursor k)) = k) ∧
    decodeOffsetCursor none = 0 ∧
    (∀ s : String, (∃ c ∈ s.data, isDigitCh c = false) →
      decodeOffsetCursor (some s) = 0) ∧
    decodeOffsetCursor (some "") = 0 := by
  refine ⟨fun k => ?_, rfl, fun s hs => ?_, rfl⟩
  · obtain ⟨M, hM⟩ := decDigitsAux_encDigits (k + 1) k (Nat.lt_succ_self k)
    show decodeOffsetCursor (some ⟨encDigits (k + 1) k⟩) = k
    rw [decodeOffsetCursor_mk _ (encDigits_ne_nil k k), hM 0]
    simp
  · cases s with
    | mk data =>
      cases data with
      | nil => simp at hs
      | cons c cs =>
        rw [decodeOffsetCursor_mk _ (by simp),
            decDigitsAux_has_nondigit _ _ hs]
        rfl

/-! ## GET pagination (C5) -/

theorem parseLimit_pos (raw : Option String) : 1 ≤ parseLimit raw := by
  unfold parseLimit
  split
  · omega
  · split
    · omega
    · split
      · omega
      · exact le_max_left _ _

/-- C5: with decoded cursor offset `k`, parsed limit `L` and total
matching count `N`, the GET page window is rows `k .. k + L - 1`
inclusive (i.e. `drop k` then `take L` of the full ordered result set)
and `nextCursor` is `encode (k + L)` exactly when `k + L < N`, else
`null`. -/
theorem C5_get_page_window (orgId : String) (p : GetParams) (st : Store)
    (hq : st.errs = []) :
    (GET orgId p st).fst =
      ListResp.ok
        (((contactsQueryRows orgId p st).drop (decodeOffsetCursor p.cursor)).take
          (parseLimit p.limit))
        (if decodeOffsetCursor p.cursor + parseLimit p.limit <
            (contactsQueryRows orgId p st).length
         then some (encodeOffsetCursor (decodeOffsetCursor p.cursor + parseLimit p.limit))
         else none) := by
  have hL := parseLimit_pos p.limit
  have h1 : decodeOffsetCursor p.cursor + parseLimit p.limit - 1 + 1 -
      decodeOffsetCursor p.cursor = parseLimit p.limit := by omega
  have h2 : decodeOffsetCursor p.cursor + parseLimit p.limit - 1 + 1 =
      decodeOffsetCursor p.cursor + parseLimit p.limit := by omega
  have h3 : decodeOffsetCursor p.cursor + parseLimit p.limit -
      decodeOffsetCursor p.cursor = parseLimit p.limit := by omega
  simp only [GET, popErr, hq, h1, h2, h3]

theorem C5_get_page_window_witness :
    demoStore.errs = [] ∧
    (GET "org" { limit := some "1" } demoStore).fst =
      ListResp.ok [demoContact2] (some "1") := by
  refine ⟨rfl, ?_⟩
  have h := C5_get_page_window "org" { limit := some "1" } demoStore rfl
  rw [h]
  decide

theorem C8_cursor_codec_witness :
    decodeOffsetCursor (some (encodeOffsetCursor 42)) = 42 ∧
    decodeOffsetCursor (some "4x2") = 0 :=
  ⟨C8_cursor_codec.1 42, C8_cursor_codec.2.2.1 "4x2" (by decide)⟩

/-! ## Unfolding lemmas for the POST pipeline -/

theorem POST_unfold (jsDate : String → Option String) (now orgId : String)
    (b : PostBody) (st : Store)
    (hep : ¬(normalizeEmail b.email = none ∧ normalizePhone b.phone = none))
    (h1 : toIsoDateString jsDate b.birth_date ≠ some "__INVALID__")
    (h2 : toIsoDateString jsDate b.last_purchase_date ≠ some "__INVALID__")
    (h3 : toIsoTimestamp jsDate b.last_interaction ≠ some "__INVALID__") :
    POST jsDate now orgId (some b) st =
      match sanitizeUUID b.client_company_id, normalizeText b.company_name with
      | none, some cn =>
        (match resolveCompanyIdFromName now orgId cn st with
         | (.error m, st1) =>
           (.err 422 ⟨if m = "" then "Invalid company" else m, "VALIDATION_ERROR"⟩, st1)
         | (.ok cid, st1) =>
           postFinish now orgId b (normalizeEmail b.email) (normalizePhone b.phone)
             (normalizeText b.name) (normalizeText b.company_name) cid
             (toIsoDateString jsDate b.birth_date)
             (toIsoTimestamp jsDate b.last_interaction)
             (toIsoDateString jsDate b.last_purchase_date) st1)
      | cid0, _ =>
        postFinish now orgId b (normalizeEmail b.email) (normalizePhone b.phone)
          (normalizeText b.name) (normalizeText b.company_name) cid0
          (toIsoDateString jsDate b.birth_date)
          (toIsoTimestamp jsDate b.last_interaction)
          (toIsoDateString jsDate b.last_purchase_date) st := by
  rcases he : normalizeEmail b.email with _ | e <;>
    rcases hp : normalizePhone b.phone with _ | p
  · exact absurd ⟨he, hp⟩ hep
  all_goals
    simp only [POST, he, hp, if_neg h1, if_neg h2, if_neg h3]

theorem POST_unfold_company (jsDate : String → Option String) (now orgId : String)
    (b : PostBody) (st : Store) (cn : String)
    (hep : ¬(normalizeEmail b.email = none ∧ normalizePhone b.phone = none))
    (h1 : toIsoDateString jsDate b.birth_date ≠ some "__INVALID__")
    (h2 : toIsoDateString jsDate b.last_purchase_date ≠ some "__INVALID__")
    (h3 : toIsoTimestamp jsDate b.last_interaction ≠ some "__INVALID__")
    (hcid : sanitizeUUID b.client_company_id = none)
    (hcn : normalizeText b.company_name = some cn) :
    POST jsDate now orgId (some b) st =
      match resolveCompanyIdFromName now orgId cn st with
      | (.error m, st1) =>
        (.err 422 ⟨if m = "" then "Invalid company" else m, "VALIDATION_ERROR"⟩, st1)
      | (.ok cid, st1) =>
        postFinish now orgId b (normalizeEmail b.email) (normalizePhone b.phone)
          (normalizeText b.name) (some cn) cid
          (toIsoDateString jsDate b.birth_date)
          (toIsoTimestamp jsDate b.last_interaction)
          (toIsoDateString jsDate b.last_purchase_date) st1 := by
  rw [POST_unfold jsDate now orgId b st hep h1 h2 h3, hcid, hcn]

theorem POST_unfold_nocompany (jsDate : String → Option String) (now orgId : String)
    (b : PostBody) (st : Store)
    (hep : ¬(normalizeEmail b.email = none ∧ normalizePhone b.phone = none))
    (h1 : toIsoDateString jsDate b.birth_date ≠ some "__INVALID__")
    (h2 : toIsoDateString jsDate b.last_purchase_date ≠ some "__INVALID__")
    (h3 : toIsoTimestamp jsDate b.last_interaction ≠ some "__INVALID__")
    (hskip : normalizeText b.company_name = none ∨ sanitizeUUID b.client_company_id ≠ none) :
    POST jsDate now orgId (some b) st =
      postFinish now orgId b (normalizeEmail b.email) (normalizePhone b.phone)
        (normalizeText b.name) (normalizeText b.company_name)
        (sanitizeUUID b.client_company_id)
        (toIsoDateString jsDate b.birth_date)
        (toIsoTimestamp jsDate b.last_interaction)
        (toIsoDateString jsDate b.last_purchase_date) st := by
  rw [POST_unfold jsDate now orgId b st hep h1 h2 h3]
  rcases hskip with hcn | hcid
  · rw [hcn]
    rcases hcid : sanitizeUUID b.client_company_id with _ | u <;> rfl
  · rcases hcid2 : sanitizeUUID b.client_company_id with _ | u
    · exact absurd hcid2 hcid
    · rfl

theorem postFinish_update (now orgId : String) (b : PostBody)
    (email phone name companyName cid bd li lp : Option String) (st : Store)
    (hq : st.errs = []) (c : Contact)
    (hm : dedupRows orgId email phone st = [c])
    (hid : st.contacts.filter (fun d => d.id == c.id) = [c]) :
    postFinish now orgId b email phone name companyName cid bd li lp st =
      (.ok 200 "updated"
        (postUpdatePayload now orgId b email phone name companyName cid bd li lp c),
       { st with contacts := st.contacts.map fun d =>
           if d.id == c.id then
             postUpdatePayload now orgId b email phone name companyName cid bd li lp c
           else d }) := by
  simp only [postFinish, popErr, hq, hm, hid]

theorem postFinish_create (now orgId : String) (b : PostBody)
    (email phone companyName cid bd li lp : Option String) (nm : String) (st : Store)
    (hq : st.errs = [])
    (hm : dedupRows orgId email phone st = []) :
    postFinish now orgId b email phone (some nm) companyName cid bd li lp st =
      (.ok 201 "created"
        (postInsertContact now orgId b email phone companyName cid bd li lp nm st),
       { st with
         contacts := st.contacts ++
           [postInsertContact now orgId b email phone companyName cid bd li lp nm st],
         nextId := st.nextId + 1 }) := by
  simp only [postFinish, popErr, hq, hm]

theorem postFinish_noname (now orgId : String) (b : PostBody)
    (email phone companyName cid bd li lp : Option String) (st : Store)
    (hq : st.errs = []) (hm : dedupRows orgId email phone st = []) :
    postFinish now orgId b email phone none companyName cid bd li lp st =
      (.err 422 ⟨"Name is required to create a new contact", "VALIDATION_ERROR"⟩, st) := by
  simp only [postFinish, popErr, hq, hm]

/-! ## Lemmas about the Company Resolver -/

theorem resolveCompany_found (now orgId cn : String) (st : Store)
    (hq : st.errs = []) (name : String)
    (hname : normalizeText (some cn) = some name) (co : Company)
    (hrows : companyLookupRows orgId name st = [co]) :
    resolveCompanyIdFromName now orgId cn st = (.ok (some co.id), st) := by
  simp only [resolveCompanyIdFromName, popErr, hq, hname, hrows]

theorem resolveCompany_create (now orgId cn : String) (st : Store)
    (hq : st.errs = []) (name : String)
    (hname : normalizeText (some cn) = some name)
    (hrows : companyLookupRows orgId name st = []) :
    resolveCompanyIdFromName now orgId cn st =
      (.ok (some (freshCompanyId st)),
       { st with
         companies := st.companies ++
           [{ id := freshCompanyId st, organization_id := orgId, name := name,
              created_at := now, updated_at := now, deleted_at := none }],
         nextId := st.nextId + 1 }) := by
  simp only [resolveCompanyIdFromName, popErr, hq, hname, hrows]

theorem resolveCompany_multi (now orgId cn : String) (st : Store)
    (hq : st.errs = []) (name : String)
    (hname : normalizeText (some cn) = some name)
    (co1 co2 : Company) (rest : List Company)
    (hrows : companyLookupRows orgId name st = co1 :: co2 :: rest) :
    resolveCompanyIdFromName now orgId cn st = (.error "multiple rows", st) := by
  simp only [resolveCompanyIdFromName, popErr, hq, hname, hrows]

theorem resolveCompany_preserves_contacts (now orgId cn : String) (st : Store) :
    (resolveCompanyIdFromName now orgId cn st).2.contacts = st.contacts := by
  rcases hn : normalizeText (some cn) with _ | name
  · simp only [resolveCompanyIdFromName, hn]
  · rcases herr : st.errs with _ | ⟨e0, rest⟩
    · rcases hrows : companyLookupRows orgId name st with _ | ⟨co1, tail⟩
      · simp only [resolveCompanyIdFromName, popErr, hn, herr, hrows]
      · rcases tail with _ | ⟨co2, tail2⟩ <;>
          simp only [resolveCompanyIdFromName, popErr, hn, herr, hrows]
    · rcases e0 with _ | m
      · rcases hrows : companyLookupRows orgId name { st with errs := rest } with _ | ⟨co1, tail⟩
        · rcases rest with _ | ⟨e1, rest2⟩
          · simp only [resolveCompanyIdFromName, popErr, hn, herr, hrows]
          · rcases e1 with _ | m2 <;>
              simp only [resolveCompanyIdFromName, popErr, hn, herr, hrows]
        · rcases tail with _ | ⟨co2, tail2⟩ <;>
            simp only [resolveCompanyIdFromName, popErr, hn, herr, hrows]
      · simp only [resolveCompanyIdFromName, popErr, hn, herr]

theorem resolveCompany_preserves_errs_nil (now orgId cn : String) (st : Store)
    (hq : st.errs = []) :
    (resolveCompanyIdFromName now orgId cn st).2.errs = [] := by
  rcases hn : normalizeText (some cn) with _ | name
  · simp only [resolveCompanyIdFromName, hn]
    exact hq
  · rcases hrows : companyLookupRows orgId name st with _ | ⟨co1, tail⟩
    · simp only [resolveCompanyIdFromName, popErr, hn, hq, hrows]
      try exact hq
    · rcases tail with _ | ⟨co2, tail2⟩ <;>
        simp only [resolveCompanyIdFromName, popErr, hn, hq, hrows]

/-! ## C1: validation aborts and store writes -/

/-- C1 counterexample: a POST with an email, a fresh company name and
no `name` ends in a validation error (`Name is required to create a
new contact`), yet the company record created by name resolution has
already been written: the store is not left unchanged by a request
that ends in a validation error. -/
theorem C1_counterexample :
    (POST jsNone "2024-03-01T00:00:00.000Z" "org"
        (some { email := some "a@b.c", company_name := some "Acme" }) emptyStore).fst =
      PostResp.err 422 ⟨"Name is required to create a new contact", "VALIDATION_ERROR"⟩ ∧
    (POST jsNone "2024-03-01T00:00:00.000Z" "org"
        (some { email := some "a@b.c", company_name := some "Acme" }) emptyStore).snd.companies ≠
      emptyStore.companies := by
  constructor
  · decide
  · decide

/-- C1 (amended): schema violations, missing email-and-phone, and
invalid date/timestamp requests abort with a validation error before
any store call, leaving the store unchanged; the missing-name-on-create
validation error, by contrast, is raised only after company resolution
and the dedup lookup, so the contacts table is unchanged but a company
record created by name resolution persists. -/
theorem C1_validation_order (jsDate : String → Option String) (now orgId : String)
    (st : Store) :
    (POST jsDate now orgId none st =
      (.err 422 ⟨"Invalid payload", "VALIDATION_ERROR"⟩, st)) ∧
    (∀ b : PostBody, normalizeEmail b.email = none → normalizePhone b.phone = none →
      POST jsDate now orgId (some b) st =
        (.err 422 ⟨"Provide email or phone", "VALIDATION_ERROR"⟩, st)) ∧
    (∀ b : PostBody, ¬(normalizeEmail b.email = none ∧ normalizePhone b.phone = none) →
      toIsoDateString jsDate b.birth_date = some "__INVALID__" →
      POST jsDate now orgId (some b) st =
        (.err 422 ⟨"Invalid birth_date", "VALIDATION_ERROR"⟩, st)) ∧
    (∀ b : PostBody, ¬(normalizeEmail b.email = none ∧ normalizePhone b.phone = none) →
      toIsoDateString jsDate b.birth_date ≠ some "__INVALID__" →
      toIsoDateString jsDate b.last_purchase_date = some "__INVALID__" →
      POST jsDate now orgId (some b) st =
        (.err 422 ⟨"Invalid last_purchase_date", "VALIDATION_ERROR"⟩, st)) ∧
    (∀ b : PostBody, ¬(normalizeEmail b.email = none ∧ normalizePhone b.phone = none) →
      toIsoDateString jsDate b.birth_date ≠ some "__INVALID__" →
      toIsoDateString jsDate b.last_purchase_date ≠ some "__INVALID__" →
      toIsoTimestamp jsDate b.last_interaction = some "__INVALID__" →
      POST jsDate now orgId (some b) st =
        (.err 422 ⟨"Invalid last_interaction", "VALIDATION_ERROR"⟩, st)) ∧
    (∀ b : PostBody, ¬(normalizeEmail b.email = none ∧ normalizePhone b.phone = none) →
      toIsoDateString jsDate b.birth_date ≠ some "__INVALID__" →
      toIsoDateString jsDate b.last_purchase_date ≠ some "__INVALID__" →
      toIsoTimestamp jsDate b.last_interaction ≠ some "__INVALID__" →
      normalizeText b.name = none → st.errs = [] →
      normalizeText b.company_name = none →
      dedupRows orgId (normalizeEmail b.email) (normalizePhone b.phone) st = [] →
      POST jsDate now orgId (some b) st =
        (.err 422 ⟨"Name is required to create a new contact", "VALIDATION_ERROR"⟩, st)) ∧
    (∀ b : PostBody, ∀ cn : String, ∀ cid : Option String, ∀ st1 : Store,
      ¬(normalizeEmail b.email = none ∧ normalizePhone b.phone = none) →
      toIsoDateString jsDate b.birth_date ≠ some "__INVALID__" →
      toIsoDateString jsDate b.last_purchase_date ≠ some "__INVALID__" →
      toIsoTimestamp jsDate b.last_interaction ≠ some "__INVALID__" →
      normalizeText b.name = none → st.errs = [] →
      sanitizeUUID b.client_company_id = none →
      normalizeText b.company_name = some cn →
      resolveCompanyIdFromName now orgId cn st = (.ok cid, st1) →
      dedupRows orgId (normalizeEmail b.email) (normalizePhone b.phone) st1 = [] →
      POST jsDate now orgId (some b) st =
        (.err 422 ⟨"Name is required to create a new contact", "VALIDATION_ERROR"⟩, st1) ∧
      st1.contacts = st.contacts) := by
  refine ⟨rfl, ?_, ?_, ?_, ?_, ?_, ?_⟩
  · intro b he hp
    simp only [POST, he, hp]
  · intro b hep hbad
    rcases he : normalizeEmail b.email with _ | e <;>
      rcases hp : normalizePhone b.phone with _ | p
    · exact absurd ⟨he, hp⟩ hep
    all_goals simp only [POST, he, hp, if_pos hbad]
  · intro b hep h1 hbad
    rcases he : normalizeEmail b.email with _ | e <;>
      rcases hp : normalizePhone b.phone with _ | p
    · exact absurd ⟨he, hp⟩ hep
    all_goals simp only [POST, he, hp, if_neg h1, if_pos hbad]
  · intro b hep h1 h2 hbad
    rcases he : normalizeEmail b.email with _ | e <;>
      rcases hp : normalizePhone b.phone with _ | p
    · exact absurd ⟨he, hp⟩ hep
    all_goals simp only [POST, he, hp, if_neg h1, if_neg h2, if_pos hbad]
  · intro b hep h1 h2 h3 hname hq hcn hm
    rw [POST_unfold_nocompany jsDate now orgId b st hep h1 h2 h3 (Or.inl hcn), hname]
    exact postFinish_noname now orgId b _ _ _ _ _ _ _ st hq hm
  · intro b cn cid st1 hep h1 h2 h3 hname hq hcid hcn hres hm1
    have hc1 : st1.contacts = st.contacts := by
      have hx := resolveCompany_preserves_contacts now orgId cn st
      rw [hres] at hx
      exact hx
    have hq1 : st1.errs = [] := by
      have hx := resolveCompany_preserves_errs_nil now orgId cn st hq
      rw [hres] at hx
      exact hx
    refine ⟨?_, hc1⟩
    rw [POST_unfold_company jsDate now orgId b st cn hep h1 h2 h3 hcid hcn, hname, hres]
    exact postFinish_noname now orgId b _ _ _ _ _ _ _ st1 hq1 hm1

theorem C1_validation_order_witness :
    POST jsNone "2024-03-01T00:00:00.000Z" "org" (some { name := some "Ana" }) emptyStore =
      (.err 422 ⟨"Provide email or phone", "VALIDATION_ERROR"⟩, emptyStore) :=
  (C1_validation_order jsNone "2024-03-01T00:00:00.000Z" "org" emptyStore).2.1
    { name := some "Ana" } (by decide) (by decide)

/-! ## C6: invalid date / timestamp fields -/

/-- C6: on both POST (upsert) and PATCH (partial update), an
unparsable string supplied to `birth_date`, `last_purchase_date` or
`last_interaction` — when it is the first of the three (in the source
checking order `birth_date`, `last_purchase_date`, `last_interaction`)
to be invalid — aborts the request with a 422 validation error whose
message names exactly that field, before any store operation, leaving
the store unchanged; the checks are separate per field. -/
theorem C6_invalid_dates_reject (jsDate : String → Option String)
    (now orgId contactId : String) (st : Store) :
    (∀ b : PostBody, ¬(normalizeEmail b.email = none ∧ normalizePhone b.phone = none) →
      toIsoDateString jsDate b.birth_date = some "__INVALID__" →
      POST jsDate now orgId (some b) st =
        (.err 422 ⟨"Invalid birth_date", "VALIDATION_ERROR"⟩, st)) ∧
    (∀ b : PostBody, ¬(normalizeEmail b.email = none ∧ normalizePhone b.phone = none) →
      toIsoDateString jsDate b.birth_date ≠ some "__INVALID__" →
      toIsoDateString jsDate b.last_purchase_date = some "__INVALID__" →
      POST jsDate now orgId (some b) st =
        (.err 422 ⟨"Invalid last_purchase_date", "VALIDATION_ERROR"⟩, st)) ∧
    (∀ b : PostBody, ¬(normalizeEmail b.email = none ∧ normalizePhone b.phone = none) →
      toIsoDateString jsDate b.birth_date ≠ some "__INVALID__" →
      toIsoDateString jsDate b.last_purchase_date ≠ some "__INVALID__" →
      toIsoTimestamp jsDate b.last_interaction = some "__INVALID__" →
      POST jsDate now orgId (some b) st =
        (.err 422 ⟨"Invalid last_interaction", "VALIDATION_ERROR"⟩, st)) ∧
    (∀ b : PatchBody, isValidUUID contactId = true →
      (patchUpdates jsDate b).birth_date = some (some "__INVALID__") →
      PATCH jsDate now orgId contactId (some b) st =
        (.err 422 ⟨"Invalid birth_date", "VALIDATION_ERROR"⟩, st)) ∧
    (∀ b : PatchBody, isValidUUID contactId = true →
      (patchUpdates jsDate b).birth_date ≠ some (some "__INVALID__") →
      (patchUpdates jsDate b).last_purchase_date = some (some "__INVALID__") →
      PATCH jsDate now orgId contactId (some b) st =
        (.err 422 ⟨"Invalid last_purchase_date", "VALIDATION_ERROR"⟩, st)) ∧
    (∀ b : PatchBody, isValidUUID contactId = true →
      (patchUpdates jsDate b).birth_date ≠ some (some "__INVALID__") →
      (patchUpdates jsDate b).last_purchase_date ≠ some (some "__INVALID__") →
      (patchUpdates jsDate b).last_interaction = some (some "__INVALID__") →
      PATCH jsDate now orgId contactId (some b) st =
        (.err 422 ⟨"Invalid last_interaction", "VALIDATION_ERROR"⟩, st)) := by
  refine ⟨?_, ?_, ?_, ?_, ?_, ?_⟩
  · intro b hep hbad
    rcases he : normalizeEmail b.email with _ | e <;>
      rcases hp : normalizePhone b.phone with _ | p
    · exact absurd ⟨he, hp⟩ hep
    all_goals simp only [POST, he, hp, if_pos hbad]
  · intro b hep h1 hbad
    rcases he : normalizeEmail b.email with _ | e <;>
      rcases hp : normalizePhone b.phone with _ | p
    · exact absurd ⟨he, hp⟩ hep
    all_goals simp only [POST, he, hp, if_neg h1, if_pos hbad]
  · intro b hep h1 h2 hbad
    rcases he : normalizeEmail b.email with _ | e <;>
      rcases hp : normalizePhone b.phone with _ | p
    · exact absurd ⟨he, hp⟩ hep
    all_goals simp only [POST, he, hp, if_neg h1, if_neg h2, if_pos hbad]
  · intro b hid hbad
    simp only [PATCH, hid, if_pos hbad]
  · intro b hid h1 hbad
    simp only [PATCH, hid, if_neg h1, if_pos hbad]
  · intro b hid h1 h2 hbad
    simp only [PATCH, hid, if_neg h1, if_neg h2, if_pos hbad]

theorem C6_invalid_dates_reject_witness :
    POST jsNone "2024-03-01T00:00:00.000Z" "org"
        (some { email := some "a@b.c", birth_date := some "not-a-date" }) emptyStore =
      (.err 422 ⟨"Invalid birth_date", "VALIDATION_ERROR"⟩, emptyStore) ∧
    PATCH jsNone "2024-03-01T00:00:00.000Z" "org"
        "123e4567-e89b-12d3-a456-426614174000"
        (some { last_interaction := some (some "not-a-date") }) emptyStore =
      (.err 422 ⟨"Invalid last_interaction", "VALIDATION_ERROR"⟩, emptyStore) :=
  ⟨(C6_invalid_dates_reject jsNone "2024-03-01T00:00:00.000Z" "org" "x" emptyStore).1
      { email := some "a@b.c", birth_date := some "not-a-date" } (by decide) (by decide),
   (C6_invalid_dates_reject jsNone "2024-03-01T00:00:00.000Z" "org"
        "123e4567-e89b-12d3-a456-426614174000" emptyStore).2.2.2.2.2
      { last_interaction := some (some "not-a-date") } (by decide) (by decide) (by decide)
      (by decide)⟩

/-! ## Lemmas about the company stage of POST -/

theorem POST_unfold_stage (jsDate : String → Option String) (now orgId : String)
    (b : PostBody) (st : Store) (cid : Option String) (st0 : Store)
    (hep : ¬(normalizeEmail b.email = none ∧ normalizePhone b.phone = none))
    (h1 : toIsoDateString jsDate b.birth_date ≠ some "__INVALID__")
    (h2 : toIsoDateString jsDate b.last_purchase_date ≠ some "__INVALID__")
    (h3 : toIsoTimestamp jsDate b.last_interaction ≠ some "__INVALID__")
    (hstage : postCompanyStage now orgId b st = (.ok cid, st0)) :
    POST jsDate now orgId (some b) st =
      postFinish now orgId b (normalizeEmail b.email) (normalizePhone b.phone)
        (normalizeText b.name) (normalizeText b.company_name) cid
        (toIsoDateString jsDate b.birth_date)
        (toIsoTimestamp jsDate b.last_interaction)
        (toIsoDateString jsDate b.last_purchase_date) st0 := by
  rcases hcid0 : sanitizeUUID b.client_company_id with _ | u <;>
    rcases hcn : normalizeText b.company_name with _ | cn <;>
    rw [postCompanyStage, hcid0, hcn] at hstage
  · rw [POST_unfold_nocompany jsDate now orgId b st hep h1 h2 h3 (Or.inl hcn), hcid0, hcn]
    obtain ⟨h4, h5⟩ := Prod.mk.injEq .. ▸ hstage
    rw [← h5]
    cases h4
    rfl
  · replace hstage : resolveCompanyIdFromName now orgId cn st = (.ok cid, st0) := hstage
    rw [POST_unfold_company jsDate now orgId b st cn hep h1 h2 h3 hcid0 hcn, hstage]
  · rw [POST_unfold_nocompany jsDate now orgId b st hep h1 h2 h3
        (Or.inl hcn), hcid0, hcn]
    obtain ⟨h4, h5⟩ := Prod.mk.injEq .. ▸ hstage
    rw [← h5]
    cases h4
    rfl
  · rw [POST_unfold_nocompany jsDate now orgId b st hep h1 h2 h3
        (Or.inr (by rw [hcid0]; exact fun hx => Option.noConfusion hx)), hcid0, hcn]
    obtain ⟨h4, h5⟩ := Prod.mk.injEq .. ▸ hstage
    rw [← h5]
    cases h4
    rfl

theorem postCompanyStage_preserves_contacts (now orgId : String) (b : PostBody)
    (st : Store) : (postCompanyStage now orgId b st).2.contacts = st.contacts := by
  rcases hcid0 : sanitizeUUID b.client_company_id with _ | u <;>
    rcases hcn : normalizeText b.company_name with _ | cn <;>
    rw [postCompanyStage, hcid0, hcn]
  · exact resolveCompany_preserves_contacts now orgId cn st

theorem postCompanyStage_preserves_errs_nil (now orgId : String) (b : PostBody)
    (st : Store) (hq : st.errs = []) :
    (postCompanyStage now orgId b st).2.errs = [] := by
  rcases hcid0 : sanitizeUUID b.client_company_id with _ | u <;>
    rcases hcn : normalizeText b.company_name with _ | cn <;>
    rw [postCompanyStage, hcid0, hcn] <;> try exact hq
  · exact resolveCompany_preserves_errs_nil now orgId cn st hq

/-! ## C10: status and stage on the create path -/

/-- C10: past validation and company resolution, when the dedup lookup
finds no match (create path) the inserted record carries
`status = 'ACTIVE'` and `stage = 'LEAD'` regardless of the body's
`status`/`stage`; when a match is found (update path) the normalized
supplied values are applied instead. -/
theorem C10_create_forces_status_stage (jsDate : String → Option String)
    (now orgId : String) (b : PostBody) (st : Store) (cid : Option String)
    (st0 : Store)
    (hep : ¬(normalizeEmail b.email = none ∧ normalizePhone b.phone = none))
    (h1 : toIsoDateString jsDate b.birth_date ≠ some "__INVALID__")
    (h2 : toIsoDateString jsDate b.last_purchase_date ≠ some "__INVALID__")
    (h3 : toIsoTimestamp jsDate b.last_interaction ≠ some "__INVALID__")
    (hq : st.errs = [])
    (hstage : postCompanyStage now orgId b st = (.ok cid, st0)) :
    (∀ nm, normalizeText b.name = some nm →
      dedupRows orgId (normalizeEmail b.email) (normalizePhone b.phone) st0 = [] →
      ∃ c stN, POST jsDate now orgId (some b) st = (.ok 201 "created" c, stN) ∧
        c.status = some "ACTIVE" ∧ c.stage = some "LEAD") ∧
    (∀ c, dedupRows orgId (normalizeEmail b.email) (normalizePhone b.phone) st0 = [c] →
      st0.contacts.filter (fun d => d.id == c.id) = [c] →
      ∃ c2 stN, POST jsDate now orgId (some b) st = (.ok 200 "updated" c2, stN) ∧
        c2.status = normalizeText b.status ∧ c2.stage = normalizeText b.stage) := by
  have hq0 : st0.errs = [] := by
    have hx := postCompanyStage_preserves_errs_nil now orgId b st hq
    rw [hstage] at hx
    exact hx
  constructor
  · intro nm hnm hm
    have hPost := postFinish_create now orgId b (normalizeEmail b.email)
      (normalizePhone b.phone) (normalizeText b.company_name) cid
      (toIsoDateString jsDate b.birth_date) (toIsoTimestamp jsDate b.last_interaction)
      (toIsoDateString jsDate b.last_purchase_date) nm st0 hq0 hm
    rw [POST_unfold_stage jsDate now orgId b st cid st0 hep h1 h2 h3 hstage, hnm]
    exact ⟨_, _, hPost, rfl, rfl⟩
  · intro c hm hid
    have hPost := postFinish_update now orgId b (normalizeEmail b.email)
      (normalizePhone b.phone) (normalizeText b.name) (normalizeText b.company_name) cid
      (toIsoDateString jsDate b.birth_date) (toIsoTimestamp jsDate b.last_interaction)
      (toIsoDateString jsDate b.last_purchase_date) st0 hq0 c hm hid
    rw [POST_unfold_stage jsDate now orgId b st cid st0 hep h1 h2 h3 hstage]
    exact ⟨_, _, hPost, rfl, rfl⟩

theorem C10_create_forces_status_stage_witness :
    (∃ c stN,
      POST jsNone "2024-03-01T00:00:00.000Z" "org"
          (some { email := some "a@b.c", name := some "Ana",
                  status := some "PAUSED", stage := some "WON" }) emptyStore =
        (.ok 201 "created" c, stN) ∧
      c.status = some "ACTIVE" ∧ c.stage = some "LEAD") :=
  ((C10_create_forces_status_stage jsNone "2024-03-01T00:00:00.000Z" "org"
      { email := some "a@b.c", name := some "Ana",
        status := some "PAUSED", stage := some "WON" }
      emptyStore none emptyStore (by decide) (by decide) (by decide) (by decide) rfl
      rfl).1 "Ana" (by decide) (by decide))

/-! ## C9: the POST update path is a full overwrite -/

/-- C9 counterexample: on the update path, a body that omits
`client_company_id` but carries a `company_name` leaves the record
with the resolved company id, not `null`: the claim's
`client_company_id`-is-nulled-when-omitted clause fails. -/
theorem C9_counterexample :
    (POST jsNone "2024-03-01T00:00:00.000Z" "org"
        (some { email := some "ana@ex.com", company_name := some "Acme" })
        demoStore).fst.actionOf = some "updated" ∧
    ((POST jsNone "2024-03-01T00:00:00.000Z" "org"
        (some { email := some "ana@ex.com", company_name := some "Acme" })
        demoStore).fst.dataOf.map (fun c => c.client_company_id)) =
      some (some "co5") := by
  constructor
  · decide
  · decide

/-- C9 (amended): on the POST update path the write is a full
overwrite: every normalizable field is set to its normalized body
value (so an omitted field becomes `null`), `client_company_id` is set
to the id produced by the company stage (the sanitized supplied id, or
the id resolved/created from `company_name`, or `null` when neither is
present), and exactly `name` and `total_value` keep the stored value
when absent from the body. -/
theorem C9_update_full_overwrite (jsDate : String → Option String)
    (now orgId : String) (b : PostBody) (st : Store) (cid : Option String)
    (st0 : Store) (c : Contact)
    (hep : ¬(normalizeEmail b.email = none ∧ normalizePhone b.phone = none))
    (h1 : toIsoDateString jsDate b.birth_date ≠ some "__INVALID__")
    (h2 : toIsoDateString jsDate b.last_purchase_date ≠ some "__INVALID__")
    (h3 : toIsoTimestamp jsDate b.last_interaction ≠ some "__INVALID__")
    (hq : st.errs = [])
    (hstage : postCompanyStage now orgId b st = (.ok cid, st0))
    (hm : dedupRows orgId (normalizeEmail b.email) (normalizePhone b.phone) st0 = [c])
    (hid : st0.contacts.filter (fun d => d.id == c.id) = [c]) :
    ∃ c2 stN, POST jsDate now orgId (some b) st = (.ok 200 "updated" c2, stN) ∧
      c2.id = c.id ∧ c2.created_at = c.created_at ∧ c2.organization_id = orgId ∧
      c2.email = normalizeEmail b.email ∧
      c2.phone = normalizePhone b.phone ∧
      c2.role = normalizeText b.role ∧
      c2.company_name = normalizeText b.company_name ∧
      c2.client_company_id = cid ∧
      c2.avatar = normalizeText b.avatar ∧
      c2.status = normalizeText b.status ∧
      c2.stage = normalizeText b.stage ∧
      c2.source = normalizeText b.source ∧
      c2.notes = normalizeText b.notes ∧
      c2.birth_date = toIsoDateString jsDate b.birth_date ∧
      c2.last_interaction = toIsoTimestamp jsDate b.last_interaction ∧
      c2.last_purchase_date = toIsoDateString jsDate b.last_purchase_date ∧
      c2.updated_at = now ∧
      (normalizeText b.name = none → c2.name = c.name) ∧
      (∀ nm, normalizeText b.name = some nm → c2.name = some nm) ∧
      (b.total_value = none → c2.total_value = c.total_value) ∧
      (∀ v, b.total_value = some v → c2.total_value = some v) := by
  have hq0 : st0.errs = [] := by
    have hx := postCompanyStage_preserves_errs_nil now orgId b st hq
    rw [hstage] at hx
    exact hx
  have hPost := postFinish_update now orgId b (normalizeEmail b.email)
    (normalizePhone b.phone) (normalizeText b.name) (normalizeText b.company_name) cid
    (toIsoDateString jsDate b.birth_date) (toIsoTimestamp jsDate b.last_interaction)
    (toIsoDateString jsDate b.last_purchase_date) st0 hq0 c hm hid
  rw [POST_unfold_stage jsDate now orgId b st cid st0 hep h1 h2 h3 hstage]
  refine ⟨_, _, hPost, rfl, rfl, rfl, rfl, rfl, rfl, rfl, rfl, rfl, rfl, rfl, rfl,
    rfl, rfl, rfl, rfl, rfl, ?_, ?_, ?_, ?_⟩
  · intro hn
    simp only [postUpdatePayload, hn]
  · intro nm hn
    simp only [postUpdatePayload, hn]
  · intro hv
    simp only [postUpdatePayload, hv]
  · intro v hv
    simp only [postUpdatePayload, hv]

theorem C9_update_full_overwrite_witness :
    ∃ c2 stN,
      POST jsNone "2024-03-01T00:00:00.000Z" "org"
          (some { email := some "ana@ex.com", role := some "Dev" }) demoStore =
        (.ok 200 "updated" c2, stN) ∧
      c2.id = demoContact.id ∧ c2.created_at = demoContact.created_at ∧
      c2.organization_id = "org" ∧
      c2.email = normalizeEmail (some "ana@ex.com") ∧
      c2.phone = normalizePhone none ∧
      c2.role = normalizeText (some "Dev") ∧
      c2.company_name = normalizeText none ∧
      c2.client_company_id = none ∧
      c2.avatar = normalizeText none ∧
      c2.status = normalizeText none ∧
      c2.stage = normalizeText none ∧
      c2.source = normalizeText none ∧
      c2.notes = normalizeText none ∧
      c2.birth_date = toIsoDateString jsNone none ∧
      c2.last_interaction = toIsoTimestamp jsNone none ∧
      c2.last_purchase_date = toIsoDateString jsNone none ∧
      c2.updated_at = "2024-03-01T00:00:00.000Z" ∧
      c2.name = demoContact.name ∧ c2.total_value = demoContact.total_value :=
  by
    have h := C9_update_full_overwrite jsNone "2024-03-01T00:00:00.000Z" "org"
      { email := some "ana@ex.com", role := some "Dev" } demoStore none demoStore
      demoContact (by decide) (by decide) (by decide) (by decide) rfl rfl
      (by decide) (by decide)
    obtain ⟨c2, stN, hp, h1, h2, h3, h4, h5, h6, h7, h8, h9, h10, h11, h12, h13,
      h14, h15, h16, h17, hn1, hn2, hv1, hv2⟩ := h
    exact ⟨c2, stN, hp, h1, h2, h3, h4, h5, h6, h7, h8, h9, h10, h11, h12, h13,
      h14, h15, h16, h17, hn1 rfl, hv1 rfl⟩

/-- A create followed by an upsert with the same email: the second
request takes the update path on the row the first request inserted,
and the contact count does not grow again. -/
theorem upsert_same_email_no_second_row
    (jsDate jsDate2 : String → Option String) (now now2 orgId : String) (st : Store)
    (b1 b2 : PostBody) (e nm : String) (cid1 : Option String) (st0 : Store)
    (hq : st.errs = [])
    (he1 : normalizeEmail b1.email = some e) (hp1 : normalizePhone b1.phone = none)
    (he2 : normalizeEmail b2.email = some e) (hp2 : normalizePhone b2.phone = none)
    (h11 : toIsoDateString jsDate b1.birth_date ≠ some "__INVALID__")
    (h12 : toIsoDateString jsDate b1.last_purchase_date ≠ some "__INVALID__")
    (h13 : toIsoTimestamp jsDate b1.last_interaction ≠ some "__INVALID__")
    (h21 : toIsoDateString jsDate2 b2.birth_date ≠ some "__INVALID__")
    (h22 : toIsoDateString jsDate2 b2.last_purchase_date ≠ some "__INVALID__")
    (h23 : toIsoTimestamp jsDate2 b2.last_interaction ≠ some "__INVALID__")
    (hstage1 : postCompanyStage now orgId b1 st = (.ok cid1, st0))
    (hm1 : dedupRows orgId (some e) none st0 = [])
    (hnm1 : normalizeText b1.name = some nm)
    (hfresh : ∀ d ∈ st0.contacts, d.id ≠ freshContactId st0)
    (cid2 : Option String) (st2 : Store)
    (hstage2 : postCompanyStage now2 orgId b2
      { st0 with
        contacts := st0.contacts ++
          [postInsertContact now orgId b1 (some e) none (normalizeText b1.company_name)
            cid1 (toIsoDateString jsDate b1.birth_date)
            (toIsoTimestamp jsDate b1.last_interaction)
            (toIsoDateString jsDate b1.last_purchase_date) nm st0],
        nextId := st0.nextId + 1 } = (.ok cid2, st2)) :
    ∃ newC st1 c2 stN,
      POST jsDate now orgId (some b1) st = (.ok 201 "created" newC, st1) ∧
      POST jsDate2 now2 orgId (some b2) st1 = (.ok 200 "updated" c2, stN) ∧
      c2.id = newC.id ∧ c2.created_at = newC.created_at ∧
      st1.contacts.length = st.contacts.length + 1 ∧
      stN.contacts.length = st1.contacts.length := by
  have hep1 : ¬(normalizeEmail b1.email = none ∧ normalizePhone b1.phone = none) := by
    rw [he1]
    rintro ⟨hx, -⟩
    exact Option.noConfusion hx
  have hep2 : ¬(normalizeEmail b2.email = none ∧ normalizePhone b2.phone = none) := by
    rw [he2]
    rintro ⟨hx, -⟩
    exact Option.noConfusion hx
  have hq0 : st0.errs = [] := by
    have hx := postCompanyStage_preserves_errs_nil now orgId b1 st hq
    rw [hstage1] at hx
    exact hx
  have hc0 : st0.contacts = st.contacts := by
    have hx := postCompanyStage_preserves_contacts now orgId b1 st
    rw [hstage1] at hx
    exact hx
  set newC := postInsertContact now orgId b1 (some e) none (normalizeText b1.company_name)
    cid1 (toIsoDateString jsDate b1.birth_date) (toIsoTimestamp jsDate b1.last_interaction)
    (toIsoDateString jsDate b1.last_purchase_date) nm st0 with hnewC
  set st1 : Store :=
    { st0 with contacts := st0.contacts ++ [newC], nextId := st0.nextId + 1 } with hst1
  have hPost1 : POST jsDate now orgId (some b1) st = (.ok 201 "created" newC, st1) := by
    rw [POST_unfold_stage jsDate now orgId b1 st cid1 st0 hep1 h11 h12 h13 hstage1,
      hnm1, he1, hp1]
    exact postFinish_create now orgId b1 (some e) none (normalizeText b1.company_name)
      cid1 (toIsoDateString jsDate b1.birth_date)
      (toIsoTimestamp jsDate b1.last_interaction)
      (toIsoDateString jsDate b1.last_purchase_date) nm st0 hq0 hm1
  have hq1 : st1.errs = [] := hq0
  have hq2 : st2.errs = [] := by
    have hx := postCompanyStage_preserves_errs_nil now2 orgId b2 st1 hq1
    rw [hstage2] at hx
    exact hx
  have hc2 : st2.contacts = st1.contacts := by
    have hx := postCompanyStage_preserves_contacts now2 orgId b2 st1
    rw [hstage2] at hx
    exact hx
  have hpred : dedupPred orgId (some e) none newC = true := by
    simp [dedupPred, hnewC, postInsertContact]
  have hm2 : dedupRows orgId (normalizeEmail b2.email) (normalizePhone b2.phone) st2 =
      [newC] := by
    rw [he2, hp2]
    show st2.contacts.filter (dedupPred orgId (some e) none) = [newC]
    rw [hc2]
    show (st0.contacts ++ [newC]).filter (dedupPred orgId (some e) none) = [newC]
    rw [List.filter_append]
    have hnil : st0.contacts.filter (dedupPred orgId (some e) none) = [] := hm1
    rw [hnil]
    simp [hpred]
  have hidf : st2.contacts.filter (fun d => d.id == newC.id) = [newC] := by
    rw [hc2]
    show (st0.contacts ++ [newC]).filter (fun d => d.id == newC.id) = [newC]
    rw [List.filter_append]
    have hnil : st0.contacts.filter (fun d => d.id == newC.id) = [] := by
      rw [List.filter_eq_nil_iff]
      intro d hd
      have hne := hfresh d hd
      simp only [beq_iff_eq]
      intro hcontra
      refine hne ?_
      rw [hcontra, hnewC]
      rfl
    rw [hnil]
    simp
  have hPost2 := postFinish_update now2 orgId b2 (normalizeEmail b2.email)
    (normalizePhone b2.phone) (normalizeText b2.name) (normalizeText b2.company_name) cid2
    (toIsoDateString jsDate2 b2.birth_date) (toIsoTimestamp jsDate2 b2.last_interaction)
    (toIsoDateString jsDate2 b2.last_purchase_date) st2 hq2 newC hm2 hidf
  refine ⟨newC, st1,
    postUpdatePayload now2 orgId b2 (normalizeEmail b2.email) (normalizePhone b2.phone)
      (normalizeText b2.name) (normalizeText b2.company_name) cid2
      (toIsoDateString jsDate2 b2.birth_date) (toIsoTimestamp jsDate2 b2.last_interaction)
      (toIsoDateString jsDate2 b2.last_purchase_date) newC,
    { st2 with contacts := st2.contacts.map fun d =>
        if d.id == newC.id then
          (postUpdatePayload now2 orgId b2 (normalizeEmail b2.email) (normalizePhone b2.phone)
            (normalizeText b2.name) (normalizeText b2.company_name) cid2
            (toIsoDateString jsDate2 b2.birth_date) (toIsoTimestamp jsDate2 b2.last_interaction)
            (toIsoDateString jsDate2 b2.last_purchase_date) newC)
        else d },
    hPost1, ?_, rfl, rfl, ?_, ?_⟩
  · rw [POST_unfold_stage jsDate2 now2 orgId b2 st1 cid2 st2 hep2 h21 h22 h23 hstage2]
    exact hPost2
  · simp [hst1, hc0]
  · simp [List.length_map, hc2]

/-! ## C2: exactly one of create / update per request -/

/-- C2: past validation and company resolution, exactly one of create
or update happens. If exactly one non-deleted tenant contact matches
the normalized email-or-phone dedup predicate, that row is updated in
place (id and created timestamp preserved, row count unchanged) with
action `updated` and status 200; if none matches, exactly one row is
inserted with action `created` and status 201. Moreover a create
followed by a second upsert with the same email (other fields varied,
phone absent) updates the created row and never inserts a second one. -/
theorem C2_upsert_create_or_update (jsDate : String → Option String)
    (now orgId : String) (st : Store) (hq : st.errs = []) :
    (∀ b : PostBody, ∀ cid : Option String, ∀ st0 : Store, ∀ c : Contact,
      ¬(normalizeEmail b.email = none ∧ normalizePhone b.phone = none) →
      toIsoDateString jsDate b.birth_date ≠ some "__INVALID__" →
      toIsoDateString jsDate b.last_purchase_date ≠ some "__INVALID__" →
      toIsoTimestamp jsDate b.last_interaction ≠ some "__INVALID__" →
      postCompanyStage now orgId b st = (.ok cid, st0) →
      dedupRows orgId (normalizeEmail b.email) (normalizePhone b.phone) st0 = [c] →
      st0.contacts.filter (fun d => d.id == c.id) = [c] →
      ∃ c2 stN, POST jsDate now orgId (some b) st = (.ok 200 "updated" c2, stN) ∧
        c2.id = c.id ∧ c2.created_at = c.created_at ∧
        stN.contacts.length = st.contacts.length) ∧
    (∀ b : PostBody, ∀ cid : Option String, ∀ st0 : Store, ∀ nm : String,
      ¬(normalizeEmail b.email = none ∧ normalizePhone b.phone = none) →
      toIsoDateString jsDate b.birth_date ≠ some "__INVALID__" →
      toIsoDateString jsDate b.last_purchase_date ≠ some "__INVALID__" →
      toIsoTimestamp jsDate b.last_interaction ≠ some "__INVALID__" →
      postCompanyStage now orgId b st = (.ok cid, st0) →
      dedupRows orgId (normalizeEmail b.email) (normalizePhone b.phone) st0 = [] →
      normalizeText b.name = some nm →
      ∃ c2 stN, POST jsDate now orgId (some b) st = (.ok 201 "created" c2, stN) ∧
        stN.contacts.length = st.contacts.length + 1) ∧
    (∀ jsDate2 : String → Option String, ∀ now2 : String, ∀ b1 b2 : PostBody,
      ∀ e nm : String, ∀ cid1 : Option String, ∀ st0 : Store,
      ∀ cid2 : Option String, ∀ st2 : Store,
      normalizeEmail b1.email = some e → normalizePhone b1.phone = none →
      normalizeEmail b2.email = some e → normalizePhone b2.phone = none →
      toIsoDateString jsDate b1.birth_date ≠ some "__INVALID__" →
      toIsoDateString jsDate b1.last_purchase_date ≠ some "__INVALID__" →
      toIsoTimestamp jsDate b1.last_interaction ≠ some "__INVALID__" →
      toIsoDateString jsDate2 b2.birth_date ≠ some "__INVALID__" →
      toIsoDateString jsDate2 b2.last_purchase_date ≠ some "__INVALID__" →
      toIsoTimestamp jsDate2 b2.last_interaction ≠ some "__INVALID__" →
      postCompanyStage now orgId b1 st = (.ok cid1, st0) →
      dedupRows orgId (some e) none st0 = [] →
      normalizeText b1.name = some nm →
      (∀ d ∈ st0.contacts, d.id ≠ freshContactId st0) →
      postCompanyStage now2 orgId b2
        { st0 with
          contacts := st0.contacts ++
            [postInsertContact now orgId b1 (some e) none (normalizeText b1.company_name)
              cid1 (toIsoDateString jsDate b1.birth_date)
              (toIsoTimestamp jsDate b1.last_interaction)
              (toIsoDateString jsDate b1.last_purchase_date) nm st0],
          nextId := st0.nextId + 1 } = (.ok cid2, st2) →
      ∃ newC st1 c2 stN,
        POST jsDate now orgId (some b1) st = (.ok 201 "created" newC, st1) ∧
        POST jsDate2 now2 orgId (some b2) st1 = (.ok 200 "updated" c2, stN) ∧
        c2.id = newC.id ∧ c2.created_at = newC.created_at ∧
        st1.contacts.length = st.contacts.length + 1 ∧
        stN.contacts.length = st1.contacts.length) := by
  refine ⟨?_, ?_, ?_⟩
  · intro b cid st0 c hep h1 h2 h3 hstage hm hid
    have hq0 : st0.errs = [] := by
      have hx := postCompanyStage_preserves_errs_nil now orgId b st hq
      rw [hstage] at hx
      exact hx
    have hc0 : st0.contacts = st.contacts := by
      have hx := postCompanyStage_preserves_contacts now orgId b st
      rw [hstage] at hx
      exact hx
    have hPost := postFinish_update now orgId b (normalizeEmail b.email)
      (normalizePhone b.phone) (normalizeText b.name) (normalizeText b.company_name) cid
      (toIsoDateString jsDate b.birth_date) (toIsoTimestamp jsDate b.last_interaction)
      (toIsoDateString jsDate b.last_purchase_date) st0 hq0 c hm hid
    rw [POST_unfold_stage jsDate now orgId b st cid st0 hep h1 h2 h3 hstage]
    refine ⟨_, _, hPost, rfl, rfl, ?_⟩
    simp only [List.length_map, hc0]
  · intro b cid st0 nm hep h1 h2 h3 hstage hm hnm
    have hq0 : st0.errs = [] := by
      have hx := postCompanyStage_preserves_errs_nil now orgId b st hq
      rw [hstage] at hx
      exact hx
    have hc0 : st0.contacts = st.contacts := by
      have hx := postCompanyStage_preserves_contacts now orgId b st
      rw [hstage] at hx
      exact hx
    have hPost := postFinish_create now orgId b (normalizeEmail b.email)
      (normalizePhone b.phone) (normalizeText b.company_name) cid
      (toIsoDateString jsDate b.birth_date) (toIsoTimestamp jsDate b.last_interaction)
      (toIsoDateString jsDate b.last_purchase_date) nm st0 hq0 hm
    rw [POST_unfold_stage jsDate now orgId b st cid st0 hep h1 h2 h3 hstage, hnm]
    refine ⟨_, _, hPost, ?_⟩
    simp only [List.length_append, List.length_cons, List.length_nil, hc0]
  · intro jsDate2 now2 b1 b2 e nm cid1 st0 cid2 st2 he1 hp1 he2 hp2 h11 h12 h13
      h21 h22 h23 hstage1 hm1 hnm1 hfresh hstage2
    exact upsert_same_email_no_second_row jsDate jsDate2 now now2 orgId st b1 b2 e nm
      cid1 st0 hq he1 hp1 he2 hp2 h11 h12 h13 h21 h22 h23 hstage1 hm1 hnm1 hfresh
      cid2 st2 hstage2


theorem C2_upsert_create_or_update_witness :
    ∃ newC st1 c2 stN,
      POST jsNone "2024-03-01T00:00:00.000Z" "org"
          (some { email := some "ana@ex.com", name := some "Ana" }) emptyStore =
        (.ok 201 "created" newC, st1) ∧
      POST jsNone "2024-03-02T00:00:00.000Z" "org"
          (some { email := some "ANA@EX.com", name := some "Ana Silva" }) st1 =
        (.ok 200 "updated" c2, stN) ∧
      c2.id = newC.id ∧ c2.created_at = newC.created_at ∧
      st1.contacts.length = emptyStore.contacts.length + 1 ∧
      stN.contacts.length = st1.contacts.length := by
  have h := (C2_upsert_create_or_update jsNone "2024-03-01T00:00:00.000Z" "org"
      emptyStore rfl).2.2
    jsNone "2024-03-02T00:00:00.000Z"
    { email := some "ana@ex.com", name := some "Ana" }
    { email := some "ANA@EX.com", name := some "Ana Silva" }
    "ana@ex.com" "Ana" none emptyStore none
    { emptyStore with
      contacts := emptyStore.contacts ++
        [postInsertContact "2024-03-01T00:00:00.000Z" "org"
          { email := some "ana@ex.com", name := some "Ana" } (some "ana@ex.com") none
          (normalizeText (PostBody.company_name
            { email := some "ana@ex.com", name := some "Ana" }))
          none
          (toIsoDateString jsNone (PostBody.birth_date
            { email := some "ana@ex.com", name := some "Ana" }))
          (toIsoTimestamp jsNone (PostBody.last_interaction
            { email := some "ana@ex.com", name := some "Ana" }))
          (toIsoDateString jsNone (PostBody.last_purchase_date
            { email := some "ana@ex.com", name := some "Ana" }))
          "Ana" emptyStore],
      nextId := emptyStore.nextId + 1 }
    (by decide) (by decide) (by decide) (by decide) (by decide) (by decide) (by decide)
    (by decide) (by decide) (by decide) rfl rfl (by decide)
    (fun d hd => absurd hd (List.not_mem_nil d)) rfl
  exact h

/-! ## C4: the Company Resolver and case-insensitivity -/

theorem likeMatchAux_self (l : List Char) :
    (∀ fuel, 2 * l.length + 1 ≤ fuel → likeMatchAux fuel l l = true) ∧
    (∀ fuel, 2 * l.length + 2 ≤ fuel → likeMatchAux fuel ('%' :: l) l = true) := by
  induction l with
  | nil =>
    refine ⟨fun fuel hf => ?_, fun fuel hf => ?_⟩
    · obtain ⟨f, rfl⟩ : ∃ f, fuel = f + 1 := ⟨fuel - 1, by omega⟩
      rfl
    · obtain ⟨f, rfl⟩ : ∃ f, fuel = f + 2 := ⟨fuel - 2, by omega⟩
      rfl
  | cons p ps ih =>
    obtain ⟨ihA, ihB⟩ := ih
    have hA : ∀ fuel, 2 * (p :: ps).length + 1 ≤ fuel →
        likeMatchAux fuel (p :: ps) (p :: ps) = true := by
      intro fuel hf
      obtain ⟨f, rfl⟩ : ∃ f, fuel = f + 1 := ⟨fuel - 1, by omega⟩
      simp only [List.length_cons] at hf
      by_cases hp : p = '%'
      · subst hp
        have h2 : likeMatchAux f ('%' :: ps) ps = true := ihB f (by omega)
        simp only [likeMatchAux, if_pos rfl, h2, Bool.or_true, if_true]
      · by_cases hu : p = '_'
        · subst hu
          have h2 : likeMatchAux f ps ps = true := ihA f (by omega)
          simp only [likeMatchAux, if_neg hp, if_pos rfl, h2, if_true]
        · have h2 : likeMatchAux f ps ps = true := ihA f (by omega)
          simp only [likeMatchAux, if_neg hp, if_neg hu, h2, beq_self_eq_true,
            Bool.true_and]
    refine ⟨hA, fun fuel hf => ?_⟩
    obtain ⟨f, rfl⟩ : ∃ f, fuel = f + 1 := ⟨fuel - 1, by omega⟩
    simp only [List.length_cons] at hf
    have h1 : likeMatchAux f (p :: ps) (p :: ps) = true := hA f (by simp; omega)
    simp only [likeMatchAux, if_pos rfl, h1, Bool.true_or, if_true]

theorem likeMatch_self (l : List Char) : likeMatch l l = true :=
  (likeMatchAux_self l).1 (l.length + l.length + 1) (by omega)

theorem ilike_of_lower_eq (s pat : String) (h : lowerStr pat = lowerStr s) :
    ilike s pat = true := by
  unfold ilike
  rw [h]
  exact likeMatch_self (lowerStr s).data

theorem normalizeText_some_of_ne (s : String) (h : trimStr s ≠ "") :
    normalizeText (some s) = some (trimStr s) := by
  simp [normalizeText, h]

theorem normalizeText_none_of_eq (s : String) (h : trimStr s = "") :
    normalizeText (some s) = none := by
  simp [normalizeText, h]

theorem lowerStr_empty_iff (s : String) : lowerStr s = "" ↔ s = "" := by
  constructor
  · intro h
    have h2 : s.data.map lowerCh = [] := congrArg String.data h
    have h3 : s.data = [] := List.map_eq_nil_iff.mp h2
    exact String.ext (by rw [h3])
  · intro h
    rw [h]
    rfl

/-- C4 counterexample: the company lookup is not an exact-name match.
With one company named `ab` in the tenant, resolving the name `a%`
returns that company's id even though `a%` and `ab` differ beyond
letter case: the name is used as an ILIKE pattern, so `%` and `_` are
wildcards. -/
theorem C4_counterexample :
    resolveCompanyIdFromName "2024-03-01T00:00:00.000Z" "org" "a%" companyStore =
      (.ok (some "co9"), companyStore) ∧
    trimStr "a%" ≠ demoCompany.name ∧
    lowerStr (trimStr "a%") ≠ lowerStr demoCompany.name := by
  refine ⟨rfl, by decide, by decide⟩

/-- C4 (amended): the Company Resolver's lookup is a case-insensitive
LIKE-pattern match (the trimmed name is the pattern, so `%`/`_` act as
wildcards; for names without wildcard characters this is a
case-insensitive exact match) over the tenant's non-deleted companies,
and only when no row matches is a new company created. For any two
names equal up to letter case, two successive resolver calls return
the same result, in particular the same company id. -/
theorem C4_company_resolver_case_insensitive (now1 now2 orgId n1 n2 : String)
    (st : Store) (hq : st.errs = [])
    (hlow : lowerStr (trimStr n1) = lowerStr (trimStr n2)) :
    ((resolveCompanyIdFromName now2 orgId n2
        (resolveCompanyIdFromName now1 orgId n1 st).2).1 =
      (resolveCompanyIdFromName now1 orgId n1 st).1) ∧
    (∀ name, normalizeText (some n1) = some name →
      (companyLookupRows orgId name st = [] →
        ∃ co : Company, resolveCompanyIdFromName now1 orgId n1 st =
          (.ok (some co.id),
           { st with companies := st.companies ++ [co], nextId := st.nextId + 1 }) ∧
          co.name = name ∧ co.organization_id = orgId ∧
          co.created_at = now1 ∧ co.updated_at = now1 ∧ co.deleted_at = none) ∧
      (∀ co, companyLookupRows orgId name st = [co] →
        resolveCompanyIdFromName now1 orgId n1 st = (.ok (some co.id), st))) := by
  constructor
  · by_cases hempty : trimStr n1 = ""
    · have hempty2 : trimStr n2 = "" := by
        rw [hempty] at hlow
        exact (lowerStr_empty_iff (trimStr n2)).mp hlow.symm
      have hn1 := normalizeText_none_of_eq n1 hempty
      have hn2 := normalizeText_none_of_eq n2 hempty2
      simp only [resolveCompanyIdFromName, hn1, hn2]
    · have hempty2 : trimStr n2 ≠ "" := by
        intro hx
        rw [hx] at hlow
        exact hempty ((lowerStr_empty_iff (trimStr n1)).mp hlow)
      have hn1 := normalizeText_some_of_ne n1 hempty
      have hn2 := normalizeText_some_of_ne n2 hempty2
      have hrows_eq : ∀ stX : Store,
          companyLookupRows orgId (trimStr n2) stX =
            companyLookupRows orgId (trimStr n1) stX := by
        intro stX
        simp only [companyLookupRows, ilike, hlow]
      rcases hrows : companyLookupRows orgId (trimStr n1) st with _ | ⟨co1, tail⟩
      · -- create path on the first call
        have h1 := resolveCompany_create now1 orgId n1 st hq (trimStr n1) hn1 hrows
        rw [h1]
        have hq1 : ({ st with
            companies := st.companies ++
              [{ id := freshCompanyId st, organization_id := orgId, name := trimStr n1,
                 created_at := now1, updated_at := now1, deleted_at := none }],
            nextId := st.nextId + 1 } : Store).errs = [] := hq
        have hrows2 : companyLookupRows orgId (trimStr n2)
            { st with
              companies := st.companies ++
                [{ id := freshCompanyId st, organization_id := orgId, name := trimStr n1,
                   created_at := now1, updated_at := now1, deleted_at := none }],
              nextId := st.nextId + 1 } =
            [{ id := freshCompanyId st, organization_id := orgId, name := trimStr n1,
               created_at := now1, updated_at := now1, deleted_at := none }] := by
          rw [hrows_eq]
          show ((st.companies ++ [_]).filter _) = _
          rw [List.filter_append]
          have hnil : st.companies.filter (fun co =>
              co.organization_id == orgId && co.deleted_at == none &&
              ilike co.name (trimStr n1)) = [] := hrows
          rw [hnil]
          have hpred : ilike (trimStr n1) (trimStr n1) = true :=
            ilike_of_lower_eq (trimStr n1) (trimStr n1) rfl
          simp [hpred]
        have h2 := resolveCompany_found now2 orgId n2 _ hq1 (trimStr n2) hn2 _ hrows2
        rw [h2]
      · rcases tail with _ | ⟨co2, tail2⟩
        · have h1 := resolveCompany_found now1 orgId n1 st hq (trimStr n1) hn1 co1 hrows
          rw [h1]
          have h2 := resolveCompany_found now2 orgId n2 st hq (trimStr n2) hn2 co1
            (by rw [hrows_eq]; exact hrows)
          rw [h2]
        · have h1 := resolveCompany_multi now1 orgId n1 st hq (trimStr n1) hn1
            co1 co2 tail2 hrows
          rw [h1]
          have h2 := resolveCompany_multi now2 orgId n2 st hq (trimStr n2) hn2
            co1 co2 tail2 (by rw [hrows_eq]; exact hrows)
          rw [h2]
  · intro name hname
    constructor
    · intro hrows
      refine ⟨⟨freshCompanyId st, orgId, name, now1, now1, none⟩,
        resolveCompany_create now1 orgId n1 st hq name hname hrows,
        rfl, rfl, rfl, rfl, rfl⟩
    · intro co hrows
      exact resolveCompany_found now1 orgId n1 st hq name hname co hrows

theorem C4_company_resolver_case_insensitive_witness :
    (resolveCompanyIdFromName "2024-03-02T00:00:00.000Z" "org" "ACME"
        (resolveCompanyIdFromName "2024-03-01T00:00:00.000Z" "org" "Acme"
          emptyStore).2).1 =
      (resolveCompanyIdFromName "2024-03-01T00:00:00.000Z" "org" "Acme" emptyStore).1 ∧
    (resolveCompanyIdFromName "2024-03-01T00:00:00.000Z" "org" "Acme" emptyStore).1 =
      .ok (some "co0") :=
  ⟨(C4_company_resolver_case_insensitive "2024-03-01T00:00:00.000Z"
      "2024-03-02T00:00:00.000Z" "org" "Acme" "ACME" emptyStore rfl (by decide)).1,
   rfl⟩

/-! ## C7: PATCH applies exactly the present fields -/

theorem patchWrite_found (orgId contactId : String) (u : ContactUpdates) (now : String)
    (st : Store) (hq : st.errs = []) (c : Contact)
    (hrow : st.contacts.filter
      (fun d => d.organization_id == orgId && d.id == contactId) = [c]) :
    patchWrite orgId contactId u now st =
      (.ok (applyUpdates u now c),
       { st with contacts := st.contacts.map fun d =>
          if d.organization_id == orgId && d.id == contactId then applyUpdates u now d
          else d }) := by
  simp only [patchWrite, popErr, hq, hrow]

theorem PATCH_unfold (jsDate : String → Option String) (now orgId contactId : String)
    (b : PatchBody) (st : Store)
    (hid : isValidUUID contactId = true)
    (hbd : (patchUpdates jsDate b).birth_date ≠ some (some "__INVALID__"))
    (hlp : (patchUpdates jsDate b).last_purchase_date ≠ some (some "__INVALID__"))
    (hli : (patchUpdates jsDate b).last_interaction ≠ some (some "__INVALID__")) :
    PATCH jsDate now orgId contactId (some b) st =
      patchWrite orgId contactId (patchUpdates jsDate b) now st := by
  simp only [PATCH, hid, if_neg hbd, if_neg hlp, if_neg hli]

/-- C7: for every PATCH request that finds its target row, exactly the
fields present in the body are normalized and written; absent fields
keep their stored values; an explicit `null` clears the nullable
fields; `id` and `created_at` are never touched and `updated_at` is
always set. -/
theorem C7_patch_partial_update (jsDate : String → Option String)
    (now orgId contactId : String) (b : PatchBody) (st : Store) (c : Contact)
    (hid : isValidUUID contactId = true) (hq : st.errs = [])
    (hbd : (patchUpdates jsDate b).birth_date ≠ some (some "__INVALID__"))
    (hlp : (patchUpdates jsDate b).last_purchase_date ≠ some (some "__INVALID__"))
    (hli : (patchUpdates jsDate b).last_interaction ≠ some (some "__INVALID__"))
    (hrow : st.contacts.filter
      (fun d => d.organization_id == orgId && d.id == contactId) = [c]) :
    ∃ c2 stN, PATCH jsDate now orgId contactId (some b) st = (.ok c2, stN) ∧
      (∀ v, b.name = some v → c2.name = normalizeText (some v)) ∧
      (b.name = none → c2.name = c.name) ∧
      (∀ v, b.email = some v → c2.email = normalizeEmail (some v)) ∧
      (b.email = none → c2.email = c.email) ∧
      (∀ v, b.phone = some v → c2.phone = normalizePhone (some v)) ∧
      (b.phone = none → c2.phone = c.phone) ∧
      (∀ v, b.role = some v → c2.role = normalizeText (some v)) ∧
      (b.role = none → c2.role = c.role) ∧
      (∀ v, b.company_name = some v → c2.company_name = normalizeText (some v)) ∧
      (b.company_name = none → c2.company_name = c.company_name) ∧
      (∀ v, b.avatar = some v → c2.avatar = normalizeText (some v)) ∧
      (b.avatar = none → c2.avatar = c.avatar) ∧
      (∀ v, b.status = some v → c2.status = normalizeText (some v)) ∧
      (b.status = none → c2.status = c.status) ∧
      (∀ v, b.stage = some v → c2.stage = normalizeText (some v)) ∧
      (b.stage = none → c2.stage = c.stage) ∧
      (∀ v, b.source = some v → c2.source = normalizeText (some v)) ∧
      (b.source = none → c2.source = c.source) ∧
      (∀ v, b.notes = some v → c2.notes = normalizeText (some v)) ∧
      (b.notes = none → c2.notes = c.notes) ∧
      (∀ s, b.client_company_id = some (some s) →
        c2.client_company_id = sanitizeUUID (some s)) ∧
      (b.client_company_id = some none → c2.client_company_id = none) ∧
      (b.client_company_id = none → c2.client_company_id = c.client_company_id) ∧
      (∀ s, b.birth_date = some (some s) →
        c2.birth_date = toIsoDateString jsDate (some s)) ∧
      (b.birth_date = some none → c2.birth_date = none) ∧
      (b.birth_date = none → c2.birth_date = c.birth_date) ∧
      (∀ s, b.last_interaction = some (some s) →
        c2.last_interaction = toIsoTimestamp jsDate (some s)) ∧
      (b.last_interaction = some none → c2.last_interaction = none) ∧
      (b.last_interaction = none → c2.last_interaction = c.last_interaction) ∧
      (∀ s, b.last_purchase_date = some (some s) →
        c2.last_purchase_date = toIsoDateString jsDate (some s)) ∧
      (b.last_purchase_date = some none → c2.last_purchase_date = none) ∧
      (b.last_purchase_date = none → c2.last_purchase_date = c.last_purchase_date) ∧
      (∀ v, b.total_value = some (some v) → c2.total_value = some v) ∧
      (b.total_value = some none → c2.total_value = none) ∧
      (b.total_value = none → c2.total_value = c.total_value) ∧
      c2.id = c.id ∧ c2.created_at = c.created_at ∧ c2.updated_at = now := by
  have hw := patchWrite_found orgId contactId (patchUpdates jsDate b) now st hq c hrow
  refine ⟨applyUpdates (patchUpdates jsDate b) now c,
    { st with contacts := st.contacts.map fun d =>
        if d.organization_id == orgId && d.id == contactId then
          applyUpdates (patchUpdates jsDate b) now d
        else d }, ?_, ?_⟩
  · rw [PATCH_unfold jsDate now orgId contactId b st hid hbd hlp hli]
    exact hw
  · refine ⟨?_, ?_, ?_, ?_, ?_, ?_, ?_, ?_, ?_, ?_, ?_, ?_, ?_, ?_, ?_, ?_, ?_, ?_,
      ?_, ?_, ?_, ?_, ?_, ?_, ?_, ?_, ?_, ?_, ?_, ?_, ?_, ?_, ?_, ?_, ?_, ?_, ?_, ?_⟩
    all_goals first
      | rfl
      | (intro h; simp [applyUpdates, patchUpdates, h])
      | (intro v h; simp [applyUpdates, patchUpdates, h])

theorem C7_patch_partial_update_witness :
    ∃ c2 stN, PATCH jsNone "2024-03-01T00:00:00.000Z" "org"
        "123e4567-e89b-12d3-a456-426614174000"
        (some { name := some " Bia ", birth_date := some none }) uuidStore =
      (.ok c2, stN) ∧ c2.name = some "Bia" ∧ c2.birth_date = none ∧
      c2.email = uuidContact.email := by
  have h := C7_patch_partial_update jsNone "2024-03-01T00:00:00.000Z" "org"
    "123e4567-e89b-12d3-a456-426614174000"
    { name := some " Bia ", birth_date := some none }
    uuidStore uuidContact (by decide) rfl (by decide) (by decide) (by decide) (by decide)
  obtain ⟨c2, stN, hp, hnp, _, _, hea, _, _, _, _, _, _, _, _, _, _, _, _, _, _, _,
    _, _, _, _, _, hbnull, _, _, _, _, _, _, _, _, _, _, _, _, _⟩ := h
  refine ⟨c2, stN, hp, ?_, hbnull rfl, hea rfl⟩
  have hx := hnp " Bia " rfl
  rw [hx]
  decide

/-! ## C3: adapter failures and their error codes -/

theorem resolveCompany_err_select (now orgId cn : String) (st : Store) (name : String)
    (hname : normalizeText (some cn) = some name) (m : String) (rest : List (Option String))
    (herr : st.errs = some m :: rest) :
    resolveCompanyIdFromName now orgId cn st = (.error m, { st with errs := rest }) := by
  simp only [resolveCompanyIdFromName, popErr, hname, herr]

theorem resolveCompany_err_insert (now orgId cn : String) (st : Store) (name : String)
    (hname : normalizeText (some cn) = some name) (m : String) (rest : List (Option String))
    (herr : st.errs = none :: some m :: rest)
    (hrows : companyLookupRows orgId name { st with errs := some m :: rest } = []) :
    resolveCompanyIdFromName now orgId cn st = (.error m, { st with errs := rest }) := by
  simp only [resolveCompanyIdFromName, popErr, hname, herr, hrows]

/-- C3 counterexample: when the adapter fails during the company
find-or-create step inside the upsert, the handler surfaces the
adapter's message but with code `VALIDATION_ERROR` and status 422, not
`DB_ERROR`: the `catch` on `resolveCompanyIdFromName` wraps every
thrown store error as a validation error. -/
theorem C3_counterexample :
    (POST jsNone "2024-03-01T00:00:00.000Z" "org"
        (some { email := some "a@b.c", name := some "Ana", company_name := some "Acme" })
        errStore).fst =
      PostResp.err 422 ⟨"boom", "VALIDATION_ERROR"⟩ ∧
    "VALIDATION_ERROR" ≠ "DB_ERROR" := by
  exact ⟨by decide, by decide⟩

/-- C3 (amended): every adapter failure is surfaced immediately with
the adapter's message and a code from the fixed set, with no retry:
failures of the contacts select/update/insert operations (list, fetch,
patch, dedup lookup, update write, insert) surface as `DB_ERROR` with
status 500, while failures inside the company find-or-create step of
the upsert surface with the adapter's message (or `Invalid company`
when the message is empty) under code `VALIDATION_ERROR` with
status 422. -/
theorem C3_store_errors_surfaced :
    (∀ orgId : String, ∀ p : GetParams, ∀ st : Store, ∀ m : String,
      ∀ rest : List (Option String), st.errs = some m :: rest →
      GET orgId p st = (.err 500 ⟨m, "DB_ERROR"⟩, { st with errs := rest })) ∧
    (∀ orgId cid : String, ∀ st : Store, ∀ m : String, ∀ rest : List (Option String),
      isValidUUID cid = true → st.errs = some m :: rest →
      GETone orgId cid st = (.err 500 ⟨m, "DB_ERROR"⟩, { st with errs := rest })) ∧
    (∀ jsDate : String → Option String, ∀ now orgId cid : String, ∀ b : PatchBody,
      ∀ st : Store, ∀ m : String, ∀ rest : List (Option String),
      isValidUUID cid = true →
      (patchUpdates jsDate b).birth_date ≠ some (some "__INVALID__") →
      (patchUpdates jsDate b).last_purchase_date ≠ some (some "__INVALID__") →
      (patchUpdates jsDate b).last_interaction ≠ some (some "__INVALID__") →
      st.errs = some m :: rest →
      PATCH jsDate now orgId cid (some b) st =
        (.err 500 ⟨m, "DB_ERROR"⟩, { st with errs := rest })) ∧
    (∀ jsDate : String → Option String, ∀ now orgId : String, ∀ b : PostBody,
      ∀ st : Store, ∀ m : String, ∀ rest : List (Option String),
      ¬(normalizeEmail b.email = none ∧ normalizePhone b.phone = none) →
      toIsoDateString jsDate b.birth_date ≠ some "__INVALID__" →
      toIsoDateString jsDate b.last_purchase_date ≠ some "__INVALID__" →
      toIsoTimestamp jsDate b.last_interaction ≠ some "__INVALID__" →
      (normalizeText b.company_name = none ∨ sanitizeUUID b.client_company_id ≠ none) →
      st.errs = some m :: rest →
      POST jsDate now orgId (some b) st =
        (.err 500 ⟨m, "DB_ERROR"⟩, { st with errs := rest })) ∧
    (∀ jsDate : String → Option String, ∀ now orgId : String, ∀ b : PostBody,
      ∀ st : Store, ∀ c : Contact, ∀ m : String, ∀ rest : List (Option String),
      ¬(normalizeEmail b.email = none ∧ normalizePhone b.phone = none) →
      toIsoDateString jsDate b.birth_date ≠ some "__INVALID__" →
      toIsoDateString jsDate b.last_purchase_date ≠ some "__INVALID__" →
      toIsoTimestamp jsDate b.last_interaction ≠ some "__INVALID__" →
      (normalizeText b.company_name = none ∨ sanitizeUUID b.client_company_id ≠ none) →
      st.errs = none :: some m :: rest →
      dedupRows orgId (normalizeEmail b.email) (normalizePhone b.phone)
        { st with errs := some m :: rest } = [c] →
      POST jsDate now orgId (some b) st =
        (.err 500 ⟨m, "DB_ERROR"⟩, { st with errs := rest })) ∧
    (∀ jsDate : String → Option String, ∀ now orgId : String, ∀ b : PostBody,
      ∀ st : Store, ∀ nm m : String, ∀ rest : List (Option String),
      ¬(normalizeEmail b.email = none ∧ normalizePhone b.phone = none) →
      toIsoDateString jsDate b.birth_date ≠ some "__INVALID__" →
      toIsoDateString jsDate b.last_purchase_date ≠ some "__INVALID__" →
      toIsoTimestamp jsDate b.last_interaction ≠ some "__INVALID__" →
      (normalizeText b.company_name = none ∨ sanitizeUUID b.client_company_id ≠ none) →
      st.errs = none :: some m :: rest →
      dedupRows orgId (normalizeEmail b.email) (normalizePhone b.phone)
        { st with errs := some m :: rest } = [] →
      normalizeText b.name = some nm →
      POST jsDate now orgId (some b) st =
        (.err 500 ⟨m, "DB_ERROR"⟩, { st with errs := rest })) ∧
    (∀ jsDate : String → Option String, ∀ now orgId : String, ∀ b : PostBody,
      ∀ st : Store, ∀ cn name m : String, ∀ rest : List (Option String),
      ¬(normalizeEmail b.email = none ∧ normalizePhone b.phone = none) →
      toIsoDateString jsDate b.birth_date ≠ some "__INVALID__" →
      toIsoDateString jsDate b.last_purchase_date ≠ some "__INVALID__" →
      toIsoTimestamp jsDate b.last_interaction ≠ some "__INVALID__" →
      sanitizeUUID b.client_company_id = none →
      normalizeText b.company_name = some cn →
      normalizeText (some cn) = some name →
      st.errs = some m :: rest →
      POST jsDate now orgId (some b) st =
        (.err 422 ⟨if m = "" then "Invalid company" else m, "VALIDATION_ERROR"⟩,
         { st with errs := rest })) ∧
    (∀ jsDate : String → Option String, ∀ now orgId : String, ∀ b : PostBody,
      ∀ st : Store, ∀ cn name m : String, ∀ rest : List (Option String),
      ¬(normalizeEmail b.email = none ∧ normalizePhone b.phone = none) →
      toIsoDateString jsDate b.birth_date ≠ some "__INVALID__" →
      toIsoDateString jsDate b.last_purchase_date ≠ some "__INVALID__" →
      toIsoTimestamp jsDate b.last_interaction ≠ some "__INVALID__" →
      sanitizeUUID b.client_company_id = none →
      normalizeText b.company_name = some cn →
      normalizeText (some cn) = some name →
      st.errs = none :: some m :: rest →
      companyLookupRows orgId name { st with errs := some m :: rest } = [] →
      POST jsDate now orgId (some b) st =
        (.err 422 ⟨if m = "" then "Invalid company" else m, "VALIDATION_ERROR"⟩,
         { st with errs := rest })) := by
  refine ⟨?_, ?_, ?_, ?_, ?_, ?_, ?_, ?_⟩
  · intro orgId p st m rest herr
    simp only [GET, popErr, herr]
  · intro orgId cid st m rest hid herr
    simp only [GETone, hid, popErr, herr]
  · intro jsDate now orgId cid b st m rest hid h1 h2 h3 herr
    rw [PATCH_unfold jsDate now orgId cid b st hid h1 h2 h3]
    simp only [patchWrite, popErr, herr]
  · intro jsDate now orgId b st m rest hep h1 h2 h3 hskip herr
    rw [POST_unfold_nocompany jsDate now orgId b st hep h1 h2 h3 hskip]
    simp only [postFinish, popErr, herr]
  · intro jsDate now orgId b st c m rest hep h1 h2 h3 hskip herr hm
    rw [POST_unfold_nocompany jsDate now orgId b st hep h1 h2 h3 hskip]
    simp only [postFinish, popErr, herr, hm]
  · intro jsDate now orgId b st nm m rest hep h1 h2 h3 hskip herr hm hnm
    rw [POST_unfold_nocompany jsDate now orgId b st hep h1 h2 h3 hskip, hnm]
    simp only [postFinish, popErr, herr, hm]
  · intro jsDate now orgId b st cn name m rest hep h1 h2 h3 hcid0 hcn hname herr
    rw [POST_unfold_company jsDate now orgId b st cn hep h1 h2 h3 hcid0 hcn,
      resolveCompany_err_select now orgId cn st name hname m rest herr]
  · intro jsDate now orgId b st cn name m rest hep h1 h2 h3 hcid0 hcn hname herr hrows
    rw [POST_unfold_company jsDate now orgId b st cn hep h1 h2 h3 hcid0 hcn,
      resolveCompany_err_insert now orgId cn st name hname m rest herr hrows]

theorem C3_store_errors_surfaced_witness :
    GET "org" {} errStore =
      (.err 500 ⟨"boom", "DB_ERROR"⟩, { errStore with errs := [] }) ∧
    POST jsNone "2024-03-01T00:00:00.000Z" "org" (some { email := some "a@b.c" })
        errStore =
      (.err 500 ⟨"boom", "DB_ERROR"⟩, { errStore with errs := [] }) :=
  ⟨C3_store_errors_surfaced.1 "org" {} errStore "boom" [] rfl,
   C3_store_errors_surfaced.2.2.2.1 jsNone "2024-03-01T00:00:00.000Z" "org"
     { email := some "a@b.c" } errStore "boom" [] (by decide) (by decide) (by decide)
     (by decide) (Or.inl rfl) rfl⟩
